import Mathlib

/-!
Verification development for the OpenAlice release-gate decision engine.

Each definition below is a shallow embedding of a function from the
repository's `scripts/` directory (the source file and function are named
in the doc comment).  Python dictionaries are modelled by structures whose
fields are the keys the embedded function actually reads; a field of type
`Option α` models a key that may be absent or hold a value of the wrong
runtime type (every access in the source is guarded by an `isinstance`
check, so absent and ill-typed coincide).  Machine floats that only ever
hold exact decimal inputs are modelled by `ℚ`.
-/

/-- Keep-first de-duplication, the embedding of `_dedup` in
`scripts/gate_runner.py` (append `value` when not already in `out`).
`seen` is the accumulator of already-emitted values. -/
def dedupAux (seen : List String) : List String → List String
  | [] => []
  | x :: xs => if x ∈ seen then dedupAux seen xs else x :: dedupAux (x :: seen) xs

/-- `_dedup` from `scripts/gate_runner.py`. -/
def dedup (l : List String) : List String :=
  dedupAux [] l

/-- Substring containment on raw character lists: `needle in hay` in Python. -/
def strContains (hay needle : String) : Bool :=
  hay.data.tails.any (fun t => needle.data.isPrefixOf t)

/-- `str.lower()`: character-wise ASCII lowering (the deviation from
Python's full Unicode lowering is immaterial for the ASCII-only tokens the
sources compare against). -/
def strLower (s : String) : String :=
  String.mk (s.data.map Char.toLower)

/-- `str.upper()`: character-wise ASCII raising. -/
def strUpper (s : String) : String :=
  String.mk (s.data.map Char.toUpper)

/-- The whitespace set of Python's `str.strip()`. -/
def isPySpace (c : Char) : Bool :=
  c = ' ' || c = '\t' || c = '\n' || c = '\r' || c = '\x0b' || c = '\x0c'

/-- `str.strip()`: drop leading and trailing whitespace. -/
def strTrim (s : String) : String :=
  String.mk (((s.data.dropWhile isPySpace).reverse.dropWhile isPySpace).reverse)

namespace StressMetrics

/-- `stress_net_trim10_decline` from `scripts/stress_metrics.py`:
`max(0.0, (b - c) / max(abs(b), 1e-9))`. -/
def stress_net_trim10_decline (b c : ℚ) : ℚ :=
  let denom := max |b| (1 / 1000000000)
  max 0 ((b - c) / denom)

end StressMetrics

namespace RunnerGuard

/-- The fields of a history NDJSON row that `compute_rates` in
`scripts/runner_guard.py` reads.  `status` is `none` when the key is absent
or not comparable to the two status strings; `blockingIssues` is `none`
when the key is absent or not a list (`isinstance(issues, list)` fails);
non-string members of the list are skipped by the source and omitted here. -/
structure HistoryRow where
  status : Option String
  blockingIssues : Option (List String)
deriving DecidableEq, Repr

/-- The rates record returned by `compute_rates`. -/
structure Rates where
  total : ℚ
  failRate : ℚ
  timeoutRate : ℚ
  retryStormRate : ℚ
deriving DecidableEq, Repr

/-- One iteration of the counting loop in `compute_rates`: given the running
`(fail, timeout, retryStorm)` counters, add this row's contribution. -/
def countRow (acc : Nat × Nat × Nat) (row : HistoryRow) : Nat × Nat × Nat :=
  let fail := if row.status = some "tool_error" ∨ row.status = some "policy_fail"
    then acc.1 + 1 else acc.1
  let issues := row.blockingIssues.getD []
  let timeout := acc.2.1 + (if row.blockingIssues = none then 0 else
    (issues.filter (fun issue => strContains (strLower issue) "timeout")).length)
  let storm := acc.2.2 + (if row.blockingIssues = none then 0 else
    (issues.filter (fun issue => strContains (strLower issue) "retry storm")).length)
  (fail, timeout, storm)

/-- `compute_rates` from `scripts/runner_guard.py`.  The source counts with
float accumulators that only ever hold whole numbers; we count in `Nat` and
divide in `ℚ` at the end, exactly as the source divides by `total`. -/
def compute_rates (history : List HistoryRow) : Rates :=
  if history.length = 0 then
    { total := 0, failRate := 0, timeoutRate := 0, retryStormRate := 0 }
  else
    let total : ℚ := history.length
    let counts := history.foldl countRow (0, 0, 0)
    { total := total
      failRate := (counts.1 : ℚ) / total
      timeoutRate := (counts.2.1 : ℚ) / total
      retryStormRate := (counts.2.2 : ℚ) / total }

/-- The `thresholds` sub-object of the guard policy; each field `none` when
absent (the source then applies its default). -/
structure Thresholds where
  failRateMax : Option ℚ
  timeoutRateMax : Option ℚ
  retryStormAttemptsPerGateMax : Option ℚ
deriving DecidableEq, Repr

/-- The guard policy object: `mode` (absent ⇒ "learning") and the
`thresholds` map (absent or not a dict ⇒ all defaults). -/
structure GuardPolicy where
  mode : Option String
  thresholds : Option Thresholds
deriving DecidableEq, Repr

/-- `str(policy.get("mode", "learning")).lower()`. -/
def GuardPolicy.effMode (p : GuardPolicy) : String :=
  strLower (p.mode.getD "learning")

/-- The `breach` local of `transition_state`:
`fail_rate > fail_rate_max or timeout_rate > timeout_rate_max`, with the
thresholds extracted and defaulted as the source does. -/
def guardBreach (policy : GuardPolicy) (rates : Rates) : Prop :=
  let th := policy.thresholds.getD ⟨none, none, none⟩
  rates.failRate > th.failRateMax.getD 1 ∨ rates.timeoutRate > th.timeoutRateMax.getD 1

instance (policy : GuardPolicy) (rates : Rates) : Decidable (guardBreach policy rates) :=
  by unfold guardBreach; exact inferInstance

/-- `transition_state` from `scripts/runner_guard.py`, returning the next
state and the issue list.  Issue message text is kept schematic (the source
interpolates the rates into the message; only presence matters here). -/
def transition_state (previous_state : String) (policy : GuardPolicy)
    (rates : Rates) : String × List String :=
  let mode := policy.effMode
  let th := policy.thresholds.getD ⟨none, none, none⟩
  let failRateMax := th.failRateMax.getD 1
  let timeoutRateMax := th.timeoutRateMax.getD 1
  let retryStormMax := th.retryStormAttemptsPerGateMax.getD 9999
  let failRate := rates.failRate
  let timeoutRate := rates.timeoutRate
  let retryStormRate := rates.retryStormRate
  if mode = "learning" then
    let issues :=
      (if failRate > failRateMax then ["learning: failRate over configured max"] else [])
      ++ (if timeoutRate > timeoutRateMax then ["learning: timeoutRate over configured max"] else [])
      ++ (if retryStormRate > retryStormMax then ["learning: retryStormRate over configured max"] else [])
    (if previous_state ≠ "" then previous_state else "closed", issues)
  else
    let prev := if previous_state = "closed" ∨ previous_state = "open" ∨
        previous_state = "half_open" then previous_state else "closed"
    let breach := guardBreach policy rates
    if breach then
      ("open", ["guard threshold breach"])
    else if prev = "open" then ("half_open", [])
    else if prev = "half_open" then ("closed", [])
    else ("closed", [])

/-- The pure content of the report built by `evaluate_runner_guard`
(`generatedAt` omitted: it is a wall-clock timestamp). -/
structure GuardReport where
  mode : Option String
  previousState : String
  state : String
  rates : Rates
  issues : List String
deriving DecidableEq, Repr

/-- `evaluate_runner_guard` from `scripts/runner_guard.py`. -/
def evaluate_runner_guard (policy : GuardPolicy) (history : List HistoryRow)
    (previous_state : String) : GuardReport :=
  let rates := compute_rates history
  let next := transition_state previous_state policy rates
  { mode := policy.mode
    previousState := previous_state
    state := next.1
    rates := rates
    issues := next.2 }

end RunnerGuard

namespace GateRunner

/-- The raw `retries.<gate>` entry of a profile: `max_attempts` and
`interval_seconds`, each `none` when absent or not an `int`. -/
structure RetryRaw where
  max_attempts : Option Int
  interval_seconds : Option Int
deriving DecidableEq, Repr

/-- The slice of the profile consumed by `_gate_retry_cfg` and
`_run_gate_with_retry` in `scripts/gate_runner.py`: `retries` is `none`
when absent or not a dict, and maps a gate name to `none` when its entry is
not a dict; `retry_on_status` is `none` when absent or not a list. -/
structure ProfileRetry where
  retries : Option (List (String × Option RetryRaw))
  retry_on_status : Option (List String)
deriving DecidableEq, Repr

/-- `_gate_retry_cfg` from `scripts/gate_runner.py`: non-`int` or negative
values collapse to `0`. -/
def gateRetryCfg (profile : ProfileRetry) (gate : String) : Nat × Nat :=
  match profile.retries with
  | none => (0, 0)
  | some entries =>
    match entries.lookup gate with
    | none => (0, 0)
    | some none => (0, 0)
    | some (some cfg) =>
      let maxAttempts := match cfg.max_attempts with
        | some m => if 0 ≤ m then m.toNat else 0
        | none => 0
      let interval := match cfg.interval_seconds with
        | some i => if 0 ≤ i then i.toNat else 0
        | none => 0
      (maxAttempts, interval)

/-- The `retry_statuses` local of `_run_gate_with_retry`:
`[str(item) for item in retry_on] if isinstance(retry_on, list) else ["tool_error"]`. -/
def retryStatuses (profile : ProfileRetry) : List String :=
  match profile.retry_on_status with
  | some l => l
  | none => ["tool_error"]

/-- The attempt loop of `_run_gate_with_retry`, abstracted over the status
each attempt produces (`gateFn n` is the status string recorded by attempt
`n`; checkpoint persistence is I/O and not modelled).  Returns the attempts
made, as `(attempt number, status)` pairs:
break on `pass`, else retry only while the status is in `retry_statuses`
and the attempt counter is below `total_attempts`.  The loop recurses on
`left`, the number of attempts still allowed after the current one, so
`left = total_attempts - attempt` and the source's `attempt < total_attempts`
test is `0 < left`. -/
def runRem (gateFn : Nat → String) (retrySt : List String)
    (attempt left : Nat) : List (Nat × String) :=
  if gateFn attempt = "pass" then [(attempt, gateFn attempt)]
  else
    match left with
    | 0 => [(attempt, gateFn attempt)]
    | l + 1 =>
      if gateFn attempt ∈ retrySt then
        (attempt, gateFn attempt) :: runRem gateFn retrySt (attempt + 1) l
      else [(attempt, gateFn attempt)]

/-- The attempts made by `_run_gate_with_retry` for one gate:
`total_attempts = 1 + max_retries`, attempts numbered from 1 (so the first
attempt has `max_retries` attempts left after it). -/
def attemptsRun (gateFn : Nat → String) (profile : ProfileRetry)
    (gate : String) : List (Nat × String) :=
  runRem gateFn (retryStatuses profile) 1 (gateRetryCfg profile gate).1

end GateRunner

namespace Replay

/-- One parsed log line of `scripts/replay_runtime_state.py`.  Each field is
the value of the corresponding JSON key, `none` when the key is absent or
its value is not a string (`coalesce_state` skips such values).  `ts` models
the already-parsed timestamp (`parse_iso` of the first truthy of
`timestamp`/`at`/`createdAt`/`time`), as an abstract instant: `none` when
absent or unparseable. -/
structure Record where
  fromKey : Option String
  fromState : Option String
  prevState : Option String
  previousState : Option String
  toKey : Option String
  toState : Option String
  nextState : Option String
  stateKey : Option String
  ts : Option Int
deriving DecidableEq, Repr

/-- `coalesce_state`: first present, non-blank string among `vals`,
stripped and upper-cased. -/
def coalesce (vals : List (Option String)) : Option String :=
  match vals with
  | [] => none
  | v :: rest =>
    match v with
    | some s => if strTrim s ≠ "" then some (strUpper (strTrim s)) else coalesce rest
    | none => coalesce rest

/-- The from-state of a record: keys `from`, `fromState`, `prevState`,
`previousState` in order. -/
def resolveFrom (r : Record) : Option String :=
  coalesce [r.fromKey, r.fromState, r.prevState, r.previousState]

/-- The to-state of a record: keys `to`, `toState`, `nextState`, `state`
in order. -/
def resolveTo (r : Record) : Option String :=
  coalesce [r.toKey, r.toState, r.nextState, r.stateKey]

/-- `STATE_SET` from `scripts/replay_runtime_state.py`. -/
def stateSet : List String :=
  ["NORMAL", "WATCH", "DEGRADE_H0", "PAUSE_NEW_OPENS", "RECOVERY_SHADOW"]

/-- `ALLOWED_TRANSITIONS` from `scripts/replay_runtime_state.py`
(`.get(from_state, set())` is the empty list for unknown keys). -/
def allowedTransitions (s : String) : List String :=
  if s = "NORMAL" then ["NORMAL", "WATCH", "DEGRADE_H0", "PAUSE_NEW_OPENS"]
  else if s = "WATCH" then ["WATCH", "NORMAL", "DEGRADE_H0", "PAUSE_NEW_OPENS"]
  else if s = "DEGRADE_H0" then ["DEGRADE_H0", "RECOVERY_SHADOW", "PAUSE_NEW_OPENS"]
  else if s = "PAUSE_NEW_OPENS" then ["PAUSE_NEW_OPENS", "WATCH", "DEGRADE_H0", "RECOVERY_SHADOW"]
  else if s = "RECOVERY_SHADOW" then ["RECOVERY_SHADOW", "NORMAL", "DEGRADE_H0", "PAUSE_NEW_OPENS"]
  else []

/-- One transition entry of the replay report. -/
structure Transition where
  line : Nat
  fromSt : Option String
  toSt : String
  allowed : Bool
deriving DecidableEq, Repr

/-- The mutable loop state of `main` in `scripts/replay_runtime_state.py`. -/
structure LoopState where
  currentState : Option String
  lastTs : Option Int
  errors : List String
  warnings : List String
  transitions : List Transition
deriving DecidableEq, Repr

/-- The initial loop state. -/
def initLoop : LoopState :=
  { currentState := none, lastTs := none, errors := [], warnings := [], transitions := [] }

/-- One iteration of the record loop in `main` of
`scripts/replay_runtime_state.py` for the record at line `lineNo`.
Error message text follows the source with the interpolated state names
kept schematic. -/
def step (st : LoopState) (lineNo : Nat) (r : Record) : LoopState :=
  match resolveTo r with
  | none => { st with errors := st.errors ++ ["cannot determine to-state"] }
  | some toSt =>
    if toSt ∉ stateSet then
      { st with errors := st.errors ++ ["unknown state"] }
    else
      let fromSt := match resolveFrom r with
        | some f => some f
        | none => st.currentState
      if fromSt ≠ none ∧ fromSt.getD "" ∉ stateSet then
        { st with errors := st.errors ++ ["unknown from-state"] }
      else
        let warnings := match r.ts, st.lastTs with
          | some t, some l => if t < l then st.warnings ++ ["timestamp is out-of-order"] else st.warnings
          | _, _ => st.warnings
        let lastTs := match r.ts with
          | some t => some t
          | none => st.lastTs
        match fromSt with
        | none =>
          { st with
            currentState := some toSt
            lastTs := lastTs
            warnings := warnings
            transitions := st.transitions ++ [⟨lineNo, none, toSt, true⟩] }
        | some f =>
          let allowed := toSt ∈ allowedTransitions f
          let errors := if allowed then st.errors else st.errors ++ ["invalid transition"]
          { currentState := some toSt
            lastTs := lastTs
            errors := errors
            warnings := warnings
            transitions := st.transitions ++ [⟨lineNo, some f, toSt, decide allowed⟩] }

/-- Run the record loop from a given state, numbering lines from `lineNo`. -/
def runLoop (st : LoopState) (lineNo : Nat) : List Record → LoopState
  | [] => st
  | r :: rest => runLoop (step st lineNo r) (lineNo + 1) rest

/-- The replay report (the fields the claims are about). -/
structure Report where
  valid : Bool
  transitionCount : Nat
  finalState : Option String
  errors : List String
  warnings : List String
deriving DecidableEq, Repr

/-- `main` from `scripts/replay_runtime_state.py` on an already-parsed log:
`none` models a missing log file, `some records` the parsed non-blank
lines.  Returns the report and the process exit code. -/
def replayMain (log : Option (List Record)) : Report × Nat :=
  match log with
  | none =>
    ({ valid := false, transitionCount := 0, finalState := none,
       errors := ["log file not found"], warnings := [] }, 2)
  | some [] =>
    ({ valid := false, transitionCount := 0, finalState := none,
       errors := ["state machine log has no events."], warnings := [] }, 2)
  | some records =>
    let final := runLoop initLoop 1 records
    let valid := final.errors.length = 0
    ({ valid := valid
       transitionCount := final.transitions.length
       finalState := final.currentState
       errors := final.errors
       warnings := final.warnings }, if valid then 0 else 2)

/-- Declarative validity of a replay log, used to characterise the report's
`valid` flag: every line must resolve a known to-state, an explicitly given
from-state must be a known state, and every transition whose from-state is
known (explicitly or inherited from the running tracker) must be in the
allowed-transitions table.  Timestamps are not consulted. -/
def validLog (current : Option String) : List Record → Bool
  | [] => true
  | r :: rest =>
    match resolveTo r with
    | none => false
    | some toSt =>
      if toSt ∉ stateSet then false
      else
        match (match resolveFrom r with | some f => some f | none => current) with
        | none => validLog (some toSt) rest
        | some f =>
          if f ∉ stateSet then false
          else if toSt ∉ allowedTransitions f then false
          else validLog (some toSt) rest

/-- The replay-validity condition exactly as the claim words it: every log
line resolves a known to-state, and every transition of the report that has
a known from-state is in the allowed-transitions table.  (Following the
claim's words, for comparison with the code's behaviour.) -/
def claimReplayCond (log : List Record) : Bool :=
  log.all (fun r => match resolveTo r with
    | some t => t ∈ stateSet
    | none => false)
  && (runLoop initLoop 1 log).transitions.all (fun t => match t.fromSt with
    | some f => if f ∈ stateSet then t.toSt ∈ allowedTransitions f else true
    | none => true)

/-- A record with its timestamp removed, used to state that timestamps
never influence validity. -/
def stripTs (r : Record) : Record :=
  { r with ts := none }

end Replay

namespace RunnerGuard

/-- The timeout rate as the claim words it: the number of checkpoints
having any blocking issue containing "timeout", divided by the history
length.  (Following the claim's words, for comparison with
`compute_rates`.) -/
def claimTimeoutRate (history : List HistoryRow) : ℚ :=
  if history.length = 0 then 0
  else (history.countP
    (fun r => (r.blockingIssues.getD []).any
      (fun issue => strContains (strLower issue) "timeout")) : ℚ) / history.length

end RunnerGuard

namespace Attestation

/-- One entry of the owners list in `scripts/attestation.py`
(`active_owner_ids` reads only `active` and `id`; `none` models an absent
or ill-typed value). -/
structure Owner where
  id : Option String
  active : Option Bool
deriving DecidableEq, Repr

/-- The owners payload: `owners` is `none` when the key is absent or not a
list.  Non-dict members of the list are skipped by the source and omitted
here. -/
structure OwnersPayload where
  owners : Option (List Owner)
deriving DecidableEq, Repr

/-- `active_owner_ids` from `scripts/attestation.py`: the (un-trimmed) ids
of entries with `active is True` and a non-blank string id.  The source
builds a set; membership is all that is ever used, so a list suffices. -/
def active_owner_ids (payload : OwnersPayload) : List String :=
  match payload.owners with
  | none => []
  | some owners =>
    (owners.filter (fun o => o.active = some true &&
      (match o.id with | some s => strTrim s ≠ "" | none => false))).filterMap (·.id)

/-- The attestation payload fields read by `validate_attestation`; each
`Option` field is `none` when absent or not of the `isinstance`-checked
type. -/
structure AttestationPayload where
  mode : Option String
  attestedBy : Option String
  reviewedBy : Option String
  attestedAt : Option String
  reviewedAt : Option String
  scope : Option (List String)
deriving DecidableEq, Repr

/-- `validate_attestation` from `scripts/attestation.py`: returns
`(passed, issues)`; `passed` iff no issue was recorded.  The issue strings
are those of the source. -/
def validate_attestation (att : AttestationPayload) (owners : OwnersPayload) :
    Bool × List String :=
  if att.mode ≠ some "manual_attest" ∧ att.mode ≠ some "key_signed_attest" ∧
      att.mode ≠ some "service_attest" then
    (false, ["attestation.mode invalid"])
  else
    let allowed := active_owner_ids owners
    let i1 := match att.attestedBy with
      | some s => if s ∈ allowed then [] else ["attestedBy not in active owner allowlist"]
      | none => ["attestedBy not in active owner allowlist"]
    let i2 := match att.reviewedBy with
      | some s => if s ∈ allowed then [] else ["reviewedBy not in active owner allowlist"]
      | none => ["reviewedBy not in active owner allowlist"]
    let i3 := match att.attestedBy, att.reviewedBy with
      | some a, some r => if a = r then ["attestedBy must differ from reviewedBy"] else []
      | _, _ => []
    let i4 := if att.attestedAt = none then ["attestedAt missing"] else []
    let i5 := if att.reviewedAt = none then ["reviewedAt missing"] else []
    let i6 := match att.scope with
      | some l => if l.length = 0 then ["scope must be non-empty list"] else []
      | none => ["scope must be non-empty list"]
    let issues := i1 ++ i2 ++ i3 ++ i4 ++ i5 ++ i6
    (issues.length = 0, issues)

end Attestation

namespace GateRunner

/-- The checkpoint fields consumed by `_derive_verdict` in
`scripts/gate_runner.py` (`status` via `str(...)`; only `str` members of
`reasonCodes`/`blockingIssues` are aggregated, so the lists carry strings;
the other checkpoint fields play no role in the verdict result and reason
aggregation and are omitted). -/
structure Checkpoint where
  gate : String
  status : String
  reasonCodes : List String
  blockingIssues : List String
deriving DecidableEq, Repr

/-- The `decision` subtree of the profile as read by `_derive_verdict`:
`allowed_outputs` is `none` when absent or not a list. -/
structure DecisionCfg where
  default_decision_weight : Option String
  allowed_outputs : Option (List String)
deriving DecidableEq, Repr

/-- The source-fallback policy as read by `_derive_verdict`: the `mode`
string and `archiveOnly.allowedOutputs` (`none` when `archiveOnly` is
absent/not a dict or `allowedOutputs` absent/not a list, in which case the
source leaves `allowed` as the empty set). -/
structure SourceFallbackPolicy where
  mode : Option String
  archiveAllowedOutputs : Option (List String)
deriving DecidableEq, Repr

/-- The hard reason codes that escalate a `policy_fail` run to
`BLOCKED_WITH_RECOVERY_PLAN` (`blocked_codes` in `_derive_verdict`). -/
def blockedCodes : List String :=
  ["HARD_SOURCE_HEALTH_FAIL", "HARD_BUDGET_HARD_CAP_HIT",
   "HARD_GATE_RUNNER_SELF_HEALTH_FAIL"]

/-- The `result` chosen by `_derive_verdict` from the checkpoint statuses
and the aggregated reason codes, before the `allowed_outputs` and
`archive_only` overrides. -/
def baseResult (statuses : List String) (reasons : List String) : String :=
  if statuses.any (· = "tool_error") then "BLOCKED_WITH_RECOVERY_PLAN"
  else if statuses.any (· = "policy_fail") then
    if reasons.any (· ∈ blockedCodes) then "BLOCKED_WITH_RECOVERY_PLAN"
    else "NO_GO"
  else if statuses.all (fun s => s = "pass" ∨ s = "skipped") then "PAPER_ONLY_GO"
  else "NO_GO"

/-- The verdict fields that `_derive_verdict` computes from its inputs
(timestamps, hashes and registry echo fields omitted: they are copied
through from other inputs and play no role in the claims). -/
structure Verdict where
  result : String
  reasonCodes : List String
  blockingIssues : List String
deriving DecidableEq, Repr

/-- The `reasons` list of `_derive_verdict` after the unknown-code
escalation: first-seen de-duplication of all checkpoint `reasonCodes`, then
`HARD_REASON_CODE_UNKNOWN` appended (and the list re-deduplicated) when any
aggregated code is outside the canonical set. -/
def aggregatedReasons (checkpoints : List Checkpoint)
    (canonicalCodes : List String) : List String :=
  let reasons0 := dedup (checkpoints.flatMap (·.reasonCodes))
  if reasons0.any (· ∉ canonicalCodes) then
    dedup (reasons0 ++ ["HARD_REASON_CODE_UNKNOWN"])
  else reasons0

/-- The `issues` list of `_derive_verdict` before the overrides. -/
def aggregatedIssues (checkpoints : List Checkpoint)
    (canonicalCodes : List String) : List String :=
  let issues0 := dedup (checkpoints.flatMap (·.blockingIssues))
  if (dedup (checkpoints.flatMap (·.reasonCodes))).any (· ∉ canonicalCodes) then
    issues0 ++ ["unknown reason code detected in checkpoints"]
  else issues0

/-- The `result` of `_derive_verdict` just before the `allowed_outputs` and
`archive_only` overrides. -/
def preOverrideResult (checkpoints : List Checkpoint)
    (canonicalCodes : List String) : String :=
  baseResult (checkpoints.map (·.status)) (aggregatedReasons checkpoints canonicalCodes)

/-- The `decision.allowed_outputs` override of `_derive_verdict`, acting on
the `(result, reasons, issues)` triple. -/
def applyAllowedOutputs (decisionCfg : DecisionCfg)
    (v : String × List String × List String) : String × List String × List String :=
  match decisionCfg.allowed_outputs with
  | some allowed =>
    if v.1 ∉ allowed then
      ("NO_GO", dedup (v.2.1 ++ ["HARD_RELEASE_GATE_BLOCKED"]),
        v.2.2 ++ ["result not in decision.allowed_outputs"])
    else v
  | none => v

/-- The `archive_only` override of `_derive_verdict`.  An absent or
ill-typed `archiveOnly.allowedOutputs` leaves the source's `allowed` set
empty, and an empty set is falsy in Python, so the override is a no-op
then. -/
def applyArchiveOnly (sourceFallback : SourceFallbackPolicy)
    (v : String × List String × List String) : String × List String × List String :=
  if sourceFallback.mode = some "archive_only" then
    let allowed := sourceFallback.archiveAllowedOutputs.getD []
    if allowed ≠ [] ∧ v.1 ∉ allowed then
      ("BLOCKED_WITH_RECOVERY_PLAN", dedup (v.2.1 ++ ["HARD_RELEASE_GATE_BLOCKED"]),
        v.2.2 ++ ["archive_only forbids this verdict"])
    else v
  else v

/-- `_derive_verdict` from `scripts/gate_runner.py`: aggregate reasons and
issues, escalate unknown reason codes, pick the base result, then apply the
`decision.allowed_outputs` and `archive_only` overrides in that order. -/
def deriveVerdict (checkpoints : List Checkpoint) (decisionCfg : DecisionCfg)
    (sourceFallback : SourceFallbackPolicy) (canonicalCodes : List String) :
    Verdict :=
  let base := (preOverrideResult checkpoints canonicalCodes,
    aggregatedReasons checkpoints canonicalCodes,
    aggregatedIssues checkpoints canonicalCodes)
  let final := applyArchiveOnly sourceFallback (applyAllowedOutputs decisionCfg base)
  { result := final.1, reasonCodes := final.2.1, blockingIssues := final.2.2 }

end GateRunner

namespace Migration

/-- A JSON runtime value, as far as the `isinstance` checks of
`scripts/migration_compare.py` distinguish them.  Numbers carry no payload
relevant to the compare logic beyond their type. -/
inductive JVal where
  | str (s : String)
  | num (q : ℚ)
  | boolean (b : Bool)
  | arr (xs : List JVal)
  | obj (fields : List (String × JVal))

mutual

/-- Structural equality on JSON values (Python `==`). -/
def JVal.beq : JVal → JVal → Bool
  | .str a, .str b => a = b
  | .num a, .num b => a = b
  | .boolean a, .boolean b => a = b
  | .arr xs, .arr ys => JVal.beqList xs ys
  | .obj xs, .obj ys => JVal.beqObj xs ys
  | _, _ => false

/-- Structural equality on JSON arrays. -/
def JVal.beqList : List JVal → List JVal → Bool
  | [], [] => true
  | x :: xs, y :: ys => JVal.beq x y && JVal.beqList xs ys
  | _, _ => false

/-- Structural equality on JSON objects (Python dict `==` is
order-insensitive; documents are modelled with a fixed key order, for
which entrywise comparison coincides). -/
def JVal.beqObj : List (String × JVal) → List (String × JVal) → Bool
  | [], [] => true
  | (k1, v1) :: xs, (k2, v2) :: ys => k1 = k2 && JVal.beq v1 v2 && JVal.beqObj xs ys
  | _, _ => false

end

/-- Python `==` on two optional values (`None == None` is `True`). -/
def optJValEq : Option JVal → Option JVal → Bool
  | none, none => true
  | some a, some b => JVal.beq a b
  | _, _ => false

/-- The keys of a verdict document that `validate_verdict_payload` and
`compare_verdicts` read.  A field is `none` when the key is absent
(`payload.get(field)` returns `None`). -/
structure VPayload where
  version : Option JVal
  generatedAt : Option JVal
  runId : Option JVal
  result : Option JVal
  decisionWeight : Option JVal
  reasonCodes : Option JVal
  blockingIssues : Option JVal
  profileHash : Option JVal
  thresholdsHash : Option JVal
  statisticsLockHash : Option JVal
  registryVersion : Option JVal
  metricVersions : Option JVal

/-- `isinstance(value, str)` on an optional JSON value. -/
def isStr : Option JVal → Bool
  | some (JVal.str _) => true
  | _ => false

/-- `isinstance(value, list)`. -/
def isList : Option JVal → Bool
  | some (JVal.arr _) => true
  | _ => false

/-- `isinstance(value, dict)`. -/
def isDict : Option JVal → Bool
  | some (JVal.obj _) => true
  | _ => false

/-- The `(field, expected isinstance check)` pairs of the `required` table
in `validate_verdict_payload`, in source order.  Note the table has no
entry for `blockingIssues`. -/
def requiredChecks (p : VPayload) : List (String × Bool) :=
  [("version", isStr p.version),
   ("generatedAt", isStr p.generatedAt),
   ("runId", isStr p.runId),
   ("result", isStr p.result),
   ("decisionWeight", isStr p.decisionWeight),
   ("reasonCodes", isList p.reasonCodes),
   ("profileHash", isStr p.profileHash),
   ("thresholdsHash", isStr p.thresholdsHash),
   ("statisticsLockHash", isStr p.statisticsLockHash),
   ("registryVersion", isStr p.registryVersion),
   ("metricVersions", isDict p.metricVersions)]

/-- `validate_verdict_payload` from `scripts/migration_compare.py`.  The
issue strings carry the document name and offending field; the
expected/actual type names interpolated by the source are immaterial and
kept schematic. -/
def validate_verdict_payload (name : String) (p : VPayload) : List String :=
  let typeIssues := (requiredChecks p).filterMap
    (fun fc => if fc.2 then none else some (name ++ ": field " ++ fc.1 ++ " has wrong type"))
  let resultIssues := match p.result with
    | some (JVal.str r) =>
      if r ≠ "NO_GO" ∧ r ≠ "PAPER_ONLY_GO" ∧ r ≠ "BLOCKED_WITH_RECOVERY_PLAN" then
        [name ++ ": result has invalid enum value"]
      else []
    | _ => []
  let reasonIssues := match p.reasonCodes with
    | some (JVal.arr items) =>
      if items.any (fun item => match item with | JVal.str _ => false | _ => true) then
        [name ++ ": reasonCodes must contain only strings"]
      else []
    | _ => []
  typeIssues ++ resultIssues ++ reasonIssues

/-- The string members of a `reasonCodes` value, as a set-like list
(`{str(item) for item in payload.get("reasonCodes", []) if isinstance(item, str)}`). -/
def reasonStrings (p : VPayload) : List String :=
  match p.reasonCodes with
  | some (JVal.arr items) =>
    dedup (items.filterMap (fun item => match item with | JVal.str s => some s | _ => none))
  | _ => []

/-- The fields of the comparison report built by `compare_verdicts` that
the exit code depends on (plus the symmetric difference). -/
structure Comparison where
  sameResult : Bool
  onlyInBaseline : List String
  onlyInCandidate : List String
deriving DecidableEq, Repr

/-- `compare_verdicts` from `scripts/migration_compare.py` (the source
sorts the set differences; order is irrelevant to every claim and the
first-seen order is kept). -/
def compare_verdicts (baseline candidate : VPayload) : Comparison :=
  let b := reasonStrings baseline
  let c := reasonStrings candidate
  { sameResult := optJValEq baseline.result candidate.result
    onlyInBaseline := b.filter (· ∉ c)
    onlyInCandidate := c.filter (· ∉ b) }

/-- The tail of `main` from `scripts/migration_compare.py`, once both
documents loaded as JSON objects: validate both, exit `2` when any
validation error; otherwise exit `0` iff `sameResult` and `onlyInCandidate`
is empty.  Returns `(exit code, validation errors)`. -/
def migrationMain (baseline candidate : VPayload) : Nat × List String :=
  let errors := validate_verdict_payload "baseline" baseline
    ++ validate_verdict_payload "candidate" candidate
  if errors.length ≠ 0 then (2, errors)
  else
    let comparison := compare_verdicts baseline candidate
    if comparison.sameResult ∧ comparison.onlyInCandidate = [] then (0, [])
    else (2, [])

/-- Whether the `result` field holds one of the three verdict enum values
(the second check of `validate_verdict_payload`). -/
def resultEnumOk (p : VPayload) : Bool :=
  match p.result with
  | some (JVal.str r) =>
    !(r ≠ "NO_GO" ∧ r ≠ "PAPER_ONLY_GO" ∧ r ≠ "BLOCKED_WITH_RECOVERY_PLAN")
  | _ => true

/-- Whether every member of a present `reasonCodes` list is a string (the
third check of `validate_verdict_payload`). -/
def reasonCodesAllStr (p : VPayload) : Bool :=
  match p.reasonCodes with
  | some (JVal.arr items) =>
    !(items.any (fun item => match item with | JVal.str _ => false | _ => true))
  | _ => true

/-- Declarative characterisation of `validate_verdict_payload` returning no
issues: all eleven required fields well-typed, `result` in the verdict
enum, and `reasonCodes` all strings. -/
def payloadWellTyped (p : VPayload) : Bool :=
  (requiredChecks p).all (·.2) && resultEnumOk p && reasonCodesAllStr p

end Migration

namespace GateRunner

/-- The outcome dict a gate function returns to `_run_gate_with_retry`
(the fields the supervisor reads). -/
structure Outcome where
  status : String
  reasonCodes : List String
  blockingIssues : List String
deriving DecidableEq, Repr

/-- `_gate_g4` from `scripts/gate_runner.py`, for the case where the
attestation path is given.  `attestation` is `none` when the path is
missing or the file does not exist (the two branches record the same
reason code), `some payload` when the file loads. -/
def gateG4 (attestation : Option Attestation.AttestationPayload)
    (owners : Attestation.OwnersPayload) : Outcome :=
  match attestation with
  | none =>
    { status := "policy_fail"
      reasonCodes := dedup ["HARD_HARD_GATE_CHECK_FAILED"]
      blockingIssues := ["missing attestation path"] }
  | some payload =>
    let v := Attestation.validate_attestation payload owners
    let issues := if v.1 then [] else v.2
    let reasons := if v.1 then [] else ["HARD_HARD_GATE_CHECK_FAILED"]
    { status := if issues.length = 0 then "pass" else "policy_fail"
      reasonCodes := dedup reasons
      blockingIssues := issues }

/-- The `hard_open` flag computed by `_evaluate_runner_guard` in
`scripts/gate_runner.py`: `report["state"] == STATE_OPEN and mode != "learning"`. -/
def guardHardOpen (policy : RunnerGuard.GuardPolicy)
    (history : List RunnerGuard.HistoryRow) (previousState : String) : Bool :=
  let report := RunnerGuard.evaluate_runner_guard policy history previousState
  report.state = "open" ∧ policy.effMode ≠ "learning"

/-- The outcome `run_g0_fn` in `scripts/gate_runner.py` forces when the
runner guard is hard-open. -/
def guardBlockedOutcome : Outcome :=
  { status := "policy_fail"
    reasonCodes := ["HARD_GATE_RUNNER_SELF_HEALTH_FAIL"]
    blockingIssues := ["runner guard state is open; gate pipeline blocked"] }

/-- `run_g0_fn` from `scripts/gate_runner.py`: the forced guard-failure
outcome when `guard_open`, otherwise the outcome of the real G0 checks
(abstracted as `normal`). -/
def runG0Fn (guardOpen : Bool) (normal : Outcome) : Outcome :=
  if guardOpen then guardBlockedOutcome else normal

end GateRunner

/-! ## Shared lemmas -/

theorem mem_dedupAux (x : String) :
    ∀ (l seen : List String), x ∈ dedupAux seen l ↔ x ∈ l ∧ x ∉ seen := by
  intro l
  induction l with
  | nil => intro seen; simp [dedupAux]
  | cons y ys ih =>
    intro seen
    by_cases hy : y ∈ seen
    · rw [dedupAux, if_pos hy, ih]
      simp only [List.mem_cons]
      constructor
      · rintro ⟨hx, hs⟩; exact ⟨Or.inr hx, hs⟩
      · rintro ⟨hor, hs⟩
        rcases hor with h | h
        · subst h; exact absurd hy hs
        · exact ⟨h, hs⟩
    · rw [dedupAux, if_neg hy]
      simp only [List.mem_cons, ih, List.mem_cons]
      constructor
      · rintro (h | ⟨hx, hs⟩)
        · subst h; exact ⟨Or.inl rfl, hy⟩
        · exact ⟨Or.inr hx, fun hc => hs (Or.inr hc)⟩
      · rintro ⟨hor, hs⟩
        rcases hor with h | h
        · exact Or.inl h
        · by_cases hxy : x = y
          · exact Or.inl hxy
          · exact Or.inr ⟨h, fun hc => (by rcases hc with hc | hc; exact hxy hc; exact hs hc)⟩

theorem mem_dedup (x : String) (l : List String) : x ∈ dedup l ↔ x ∈ l := by
  rw [dedup, mem_dedupAux]; simp

/-! ## C9 — stress metric formula -/

/-- C9: `stress_net_trim10_decline(b, c)` equals
`max(0, (b − c)/max(|b|, 1e−9))` for all inputs; for `b ≥ 0` and `c ≤ b`
it equals `(b − c)/max(b, 1e−9)`; for `c > b` it is `0`; and for
`b = c = 0` it is `0`. -/
theorem stress_decline_formula (b c : ℚ) :
    StressMetrics.stress_net_trim10_decline b c
      = max 0 ((b - c) / max |b| (1 / 1000000000)) ∧
    (0 ≤ b → c ≤ b →
      StressMetrics.stress_net_trim10_decline b c = (b - c) / max b (1 / 1000000000)) ∧
    (b < c → StressMetrics.stress_net_trim10_decline b c = 0) ∧
    (b = 0 → c = 0 → StressMetrics.stress_net_trim10_decline b c = 0) := by
  have hdenpos : (0 : ℚ) < max |b| (1 / 1000000000) :=
    lt_of_lt_of_le (by norm_num) (le_max_right _ _)
  refine ⟨rfl, ?_, ?_, ?_⟩
  · intro hb hc
    unfold StressMetrics.stress_net_trim10_decline
    rw [abs_of_nonneg hb]
    exact max_eq_right (div_nonneg (sub_nonneg.mpr hc) (le_of_lt
      (lt_of_lt_of_le (by norm_num) (le_max_right _ _))))
  · intro hlt
    unfold StressMetrics.stress_net_trim10_decline
    exact max_eq_left (le_of_lt (div_neg_of_neg_of_pos (sub_neg.mpr hlt) hdenpos))
  · intro hb hc
    subst hb; subst hc
    unfold StressMetrics.stress_net_trim10_decline
    norm_num

/-- Witness for C9 at `b = 2`, `c = 1` (and the degenerate case at `0`). -/
theorem stress_decline_formula_witness :
    StressMetrics.stress_net_trim10_decline 2 1
      = max 0 ((2 - 1) / max |(2 : ℚ)| (1 / 1000000000)) ∧
    ((0 : ℚ) ≤ 2 → (1 : ℚ) ≤ 2 →
      StressMetrics.stress_net_trim10_decline 2 1 = (2 - 1) / max 2 (1 / 1000000000)) ∧
    ((2 : ℚ) < 1 → StressMetrics.stress_net_trim10_decline 2 1 = 0) ∧
    ((2 : ℚ) = 0 → (1 : ℚ) = 0 → StressMetrics.stress_net_trim10_decline 2 1 = 0) :=
  stress_decline_formula 2 1

/-! ## C5 — enforced-mode guard transitions -/

/-- C5: in enforced (non-learning) mode, `transition_state` maps
closed + breach to open, open + no-breach to half_open, half_open +
no-breach to closed, and half_open + breach to open, where breach means
`failRate > failRateMax` or `timeoutRate > timeoutRateMax`. -/
theorem guard_transition_table (prev : String) (policy : RunnerGuard.GuardPolicy)
    (rates : RunnerGuard.Rates) (hm : policy.effMode ≠ "learning") :
    (prev = "closed" → RunnerGuard.guardBreach policy rates →
      (RunnerGuard.transition_state prev policy rates).1 = "open") ∧
    (prev = "open" → ¬ RunnerGuard.guardBreach policy rates →
      (RunnerGuard.transition_state prev policy rates).1 = "half_open") ∧
    (prev = "half_open" → ¬ RunnerGuard.guardBreach policy rates →
      (RunnerGuard.transition_state prev policy rates).1 = "closed") ∧
    (prev = "half_open" → RunnerGuard.guardBreach policy rates →
      (RunnerGuard.transition_state prev policy rates).1 = "open") := by
  refine ⟨?_, ?_, ?_, ?_⟩ <;> intro hp hb <;> subst hp <;>
    simp [RunnerGuard.transition_state, hm, hb]

/-- Witness for C5: an enforced policy with thresholds 1/10, breaching
rates for the breach cases and zero rates for the recovery cases. -/
theorem guard_transition_table_witness :
    (("closed" : String) = "closed" →
      RunnerGuard.guardBreach ⟨some "enforced", some ⟨some (1/10), some (1/10), none⟩⟩ ⟨1, 1, 1, 0⟩ →
      (RunnerGuard.transition_state "closed" ⟨some "enforced", some ⟨some (1/10), some (1/10), none⟩⟩ ⟨1, 1, 1, 0⟩).1 = "open") ∧
    (("closed" : String) = "open" →
      ¬ RunnerGuard.guardBreach ⟨some "enforced", some ⟨some (1/10), some (1/10), none⟩⟩ ⟨1, 1, 1, 0⟩ →
      (RunnerGuard.transition_state "closed" ⟨some "enforced", some ⟨some (1/10), some (1/10), none⟩⟩ ⟨1, 1, 1, 0⟩).1 = "half_open") ∧
    (("closed" : String) = "half_open" →
      ¬ RunnerGuard.guardBreach ⟨some "enforced", some ⟨some (1/10), some (1/10), none⟩⟩ ⟨1, 1, 1, 0⟩ →
      (RunnerGuard.transition_state "closed" ⟨some "enforced", some ⟨some (1/10), some (1/10), none⟩⟩ ⟨1, 1, 1, 0⟩).1 = "closed") ∧
    (("closed" : String) = "half_open" →
      RunnerGuard.guardBreach ⟨some "enforced", some ⟨some (1/10), some (1/10), none⟩⟩ ⟨1, 1, 1, 0⟩ →
      (RunnerGuard.transition_state "closed" ⟨some "enforced", some ⟨some (1/10), some (1/10), none⟩⟩ ⟨1, 1, 1, 0⟩).1 = "open") :=
  guard_transition_table "closed"
    ⟨some "enforced", some ⟨some (1/10), some (1/10), none⟩⟩ ⟨1, 1, 1, 0⟩
    (by decide)

/-! ## C10 — learning mode never changes state nor blocks G0 -/

/-- C10: in learning mode the guard evaluation returns the persisted
previous state unchanged (`closed` when it is empty), so a persisted
`open` stays `open`; the supervisor's `hard_open` flag is set only when the
resulting state is `open` and the mode is not learning (stated for an
arbitrary second policy/history/state triple); hence in learning mode G0
is never forced to the guard-failure outcome. -/
theorem guard_learning_mode_passive (policy : RunnerGuard.GuardPolicy)
    (history : List RunnerGuard.HistoryRow) (prev : String)
    (normal : GateRunner.Outcome)
    (p2 : RunnerGuard.GuardPolicy) (h2 : List RunnerGuard.HistoryRow) (s2 : String)
    (hm : policy.effMode = "learning") :
    (RunnerGuard.evaluate_runner_guard policy history prev).state
      = (if prev ≠ "" then prev else "closed") ∧
    GateRunner.guardHardOpen policy history prev = false ∧
    GateRunner.runG0Fn (GateRunner.guardHardOpen policy history prev) normal = normal ∧
    (GateRunner.guardHardOpen p2 h2 s2 = true →
      (RunnerGuard.evaluate_runner_guard p2 h2 s2).state = "open" ∧
      p2.effMode ≠ "learning") := by
  have hstate : (RunnerGuard.evaluate_runner_guard policy history prev).state
      = (if prev ≠ "" then prev else "closed") := by
    simp [RunnerGuard.evaluate_runner_guard, RunnerGuard.transition_state, hm]
  have hopen : GateRunner.guardHardOpen policy history prev = false := by
    simp [GateRunner.guardHardOpen, hm]
  refine ⟨hstate, hopen, ?_, ?_⟩
  · rw [hopen]; rfl
  · intro h
    simp only [GateRunner.guardHardOpen, decide_eq_true_eq] at h
    exact h

/-- Witness for C10: a learning-mode policy with a persisted `open` state
and a failing history leaves the state `open` and does not force G0, while
an enforced policy over the same history does set `hard_open`. -/
theorem guard_learning_mode_passive_witness :
    (RunnerGuard.evaluate_runner_guard ⟨some "learning", none⟩
        [⟨some "tool_error", some ["timeout"]⟩] "open").state
      = (if ("open" : String) ≠ "" then "open" else "closed") ∧
    GateRunner.guardHardOpen ⟨some "learning", none⟩
        [⟨some "tool_error", some ["timeout"]⟩] "open" = false ∧
    GateRunner.runG0Fn (GateRunner.guardHardOpen ⟨some "learning", none⟩
        [⟨some "tool_error", some ["timeout"]⟩] "open")
        ⟨"pass", [], []⟩ = ⟨"pass", [], []⟩ ∧
    (GateRunner.guardHardOpen ⟨some "enforced", some ⟨some (1/2), some (1/2), none⟩⟩
        [⟨some "tool_error", some ["timeout"]⟩] "closed" = true →
      (RunnerGuard.evaluate_runner_guard ⟨some "enforced", some ⟨some (1/2), some (1/2), none⟩⟩
        [⟨some "tool_error", some ["timeout"]⟩] "closed").state = "open" ∧
      RunnerGuard.GuardPolicy.effMode ⟨some "enforced", some ⟨some (1/2), some (1/2), none⟩⟩ ≠ "learning") :=
  guard_learning_mode_passive ⟨some "learning", none⟩
    [⟨some "tool_error", some ["timeout"]⟩] "open" ⟨"pass", [], []⟩
    ⟨some "enforced", some ⟨some (1/2), some (1/2), none⟩⟩
    [⟨some "tool_error", some ["timeout"]⟩] "closed" (by decide)

/-! ## C6 — dual control: attestedBy must differ from reviewedBy -/

theorem validate_attestation_fst_iff (att : Attestation.AttestationPayload)
    (owners : Attestation.OwnersPayload) :
    (Attestation.validate_attestation att owners).1 = true ↔
      (Attestation.validate_attestation att owners).2 = [] := by
  unfold Attestation.validate_attestation
  split
  · simp
  · simp [List.length_eq_zero]

/-- C6: whenever `attestedBy` equals `reviewedBy` (both strings),
`validate_attestation` returns `passed = false` with a non-empty issue
list, and G4 then records status `policy_fail` with reason code
`HARD_HARD_GATE_CHECK_FAILED` — regardless of the owners list and of every
other field. -/
theorem attestation_dual_control (att : Attestation.AttestationPayload)
    (owners : Attestation.OwnersPayload) (s : String)
    (ha : att.attestedBy = some s) (hr : att.reviewedBy = some s) :
    (Attestation.validate_attestation att owners).1 = false ∧
    (Attestation.validate_attestation att owners).2 ≠ [] ∧
    (GateRunner.gateG4 (some att) owners).status = "policy_fail" ∧
    "HARD_HARD_GATE_CHECK_FAILED" ∈ (GateRunner.gateG4 (some att) owners).reasonCodes := by
  have hne : (Attestation.validate_attestation att owners).2 ≠ [] := by
    unfold Attestation.validate_attestation
    split
    · simp
    · simp [ha, hr]
  have hfalse : (Attestation.validate_attestation att owners).1 = false := by
    rw [Bool.eq_false_iff]
    intro htrue
    exact hne ((validate_attestation_fst_iff att owners).mp htrue)
  refine ⟨hfalse, hne, ?_, ?_⟩
  · unfold GateRunner.gateG4
    simp only [hfalse]
    simp [List.length_eq_zero, hne]
  · unfold GateRunner.gateG4
    simp only [hfalse]
    simp [mem_dedup]
/-- Witness for C6: a fully valid attestation except that the attester and
the reviewer are the same active owner. -/
theorem attestation_dual_control_witness :
    (Attestation.validate_attestation
      ⟨some "manual_attest", some "alice", some "alice", some "t0", some "t1", some ["m0"]⟩
      ⟨some [⟨some "alice", some true⟩]⟩).1 = false ∧
    (Attestation.validate_attestation
      ⟨some "manual_attest", some "alice", some "alice", some "t0", some "t1", some ["m0"]⟩
      ⟨some [⟨some "alice", some true⟩]⟩).2 ≠ [] ∧
    (GateRunner.gateG4
      (some ⟨some "manual_attest", some "alice", some "alice", some "t0", some "t1", some ["m0"]⟩)
      ⟨some [⟨some "alice", some true⟩]⟩).status = "policy_fail" ∧
    "HARD_HARD_GATE_CHECK_FAILED" ∈ (GateRunner.gateG4
      (some ⟨some "manual_attest", some "alice", some "alice", some "t0", some "t1", some ["m0"]⟩)
      ⟨some [⟨some "alice", some true⟩]⟩).reasonCodes :=
  attestation_dual_control
    ⟨some "manual_attest", some "alice", some "alice", some "t0", some "t1", some ["m0"]⟩
    ⟨some [⟨some "alice", some true⟩]⟩ "alice" rfl rfl

/-! ## C1 — verdict result before the overrides -/

theorem aggregated_any_blocked (cps : List GateRunner.Checkpoint)
    (canonical : List String) :
    ((GateRunner.aggregatedReasons cps canonical).any
        (· ∈ GateRunner.blockedCodes) = true) ↔
      ∃ c ∈ cps, ∃ code ∈ c.reasonCodes, code ∈ GateRunner.blockedCodes := by
  have hunk : "HARD_REASON_CODE_UNKNOWN" ∉ GateRunner.blockedCodes := by decide
  simp only [GateRunner.aggregatedReasons]
  split
  · simp only [List.any_eq_true, decide_eq_true_eq, mem_dedup, List.mem_append,
      List.mem_singleton, List.mem_flatMap]
    constructor
    · rintro ⟨x, hx | hx, hb⟩
      · rcases hx with ⟨c, hc, hxc⟩
        exact ⟨c, hc, x, hxc, hb⟩
      · subst hx; exact absurd hb hunk
    · rintro ⟨c, hc, code, hcode, hb⟩
      exact ⟨code, Or.inl ⟨c, hc, hcode⟩, hb⟩
  · simp only [List.any_eq_true, decide_eq_true_eq, mem_dedup, List.mem_flatMap]
    constructor
    · rintro ⟨x, ⟨c, hc, hxc⟩, hb⟩
      exact ⟨c, hc, x, hxc, hb⟩
    · rintro ⟨c, hc, code, hcode, hb⟩
      exact ⟨code, ⟨c, hc, hcode⟩, hb⟩

/-- C1: before the allowed-outputs and archive_only overrides, the verdict
deriver yields `BLOCKED_WITH_RECOVERY_PLAN` when any checkpoint has status
`tool_error`; otherwise, when any checkpoint has status `policy_fail`, it
yields `BLOCKED_WITH_RECOVERY_PLAN` if the aggregated reason codes include
one of `HARD_SOURCE_HEALTH_FAIL`, `HARD_BUDGET_HARD_CAP_HIT`,
`HARD_GATE_RUNNER_SELF_HEALTH_FAIL` and `NO_GO` otherwise; and when every
checkpoint has status `pass` or `skipped` it yields `PAPER_ONLY_GO`. -/
theorem verdict_base_result (cps : List GateRunner.Checkpoint)
    (canonical : List String) :
    ((∃ c ∈ cps, c.status = "tool_error") →
      GateRunner.preOverrideResult cps canonical = "BLOCKED_WITH_RECOVERY_PLAN") ∧
    ((∀ c ∈ cps, c.status ≠ "tool_error") → (∃ c ∈ cps, c.status = "policy_fail") →
      ((∃ c ∈ cps, ∃ code ∈ c.reasonCodes, code ∈ GateRunner.blockedCodes) →
        GateRunner.preOverrideResult cps canonical = "BLOCKED_WITH_RECOVERY_PLAN") ∧
      ((∀ c ∈ cps, ∀ code ∈ c.reasonCodes, code ∉ GateRunner.blockedCodes) →
        GateRunner.preOverrideResult cps canonical = "NO_GO")) ∧
    ((∀ c ∈ cps, c.status = "pass" ∨ c.status = "skipped") →
      GateRunner.preOverrideResult cps canonical = "PAPER_ONLY_GO") := by
  refine ⟨?_, ?_, ?_⟩
  · intro h
    have hte : (cps.map (·.status)).any (· = "tool_error") = true := by
      simp only [List.any_eq_true, decide_eq_true_eq, List.mem_map]
      rcases h with ⟨c, hc, hs⟩
      exact ⟨c.status, ⟨c, hc, rfl⟩, hs⟩
    simp [GateRunner.preOverrideResult, GateRunner.baseResult, hte]
  · intro hno hpf
    have hte : (cps.map (·.status)).any (· = "tool_error") = false := by
      simp only [List.any_eq_false, decide_eq_true_eq, List.mem_map]
      rintro x ⟨c, hc, rfl⟩
      exact hno c hc
    have hpfa : (cps.map (·.status)).any (· = "policy_fail") = true := by
      simp only [List.any_eq_true, decide_eq_true_eq, List.mem_map]
      rcases hpf with ⟨c, hc, hs⟩
      exact ⟨c.status, ⟨c, hc, rfl⟩, hs⟩
    constructor
    · intro hblocked
      have hb := (aggregated_any_blocked cps canonical).mpr hblocked
      simp [GateRunner.preOverrideResult, GateRunner.baseResult, hte, hpfa, hb]
    · intro hnone
      have hb : (GateRunner.aggregatedReasons cps canonical).any
          (· ∈ GateRunner.blockedCodes) = false := by
        rw [Bool.eq_false_iff]
        intro htrue
        rcases (aggregated_any_blocked cps canonical).mp htrue with ⟨c, hc, code, hcode, hbl⟩
        exact hnone c hc code hcode hbl
      simp [GateRunner.preOverrideResult, GateRunner.baseResult, hte, hpfa, hb]
  · intro hall
    have hte : (cps.map (·.status)).any (· = "tool_error") = false := by
      simp only [List.any_eq_false, decide_eq_true_eq, List.mem_map]
      rintro x ⟨c, hc, rfl⟩
      rcases hall c hc with h | h <;> simp [h]
    have hpfa : (cps.map (·.status)).any (· = "policy_fail") = false := by
      simp only [List.any_eq_false, decide_eq_true_eq, List.mem_map]
      rintro x ⟨c, hc, rfl⟩
      rcases hall c hc with h | h <;> simp [h]
    have hps : (cps.map (·.status)).all (fun s => s = "pass" ∨ s = "skipped") = true := by
      simp only [List.all_eq_true, decide_eq_true_eq, List.mem_map]
      rintro x ⟨c, hc, rfl⟩
      exact hall c hc
    simp only [GateRunner.preOverrideResult, GateRunner.baseResult, hte, hpfa, hps]
    simp

/-- Witness for C1: a pipeline with a `tool_error` checkpoint is blocked; a
`policy_fail` pipeline without hard-block codes is `NO_GO`; an
all-pass/skipped pipeline is `PAPER_ONLY_GO`. -/
theorem verdict_base_result_witness :
    ((∃ c ∈ [GateRunner.Checkpoint.mk "G1" "tool_error" [] []], c.status = "tool_error") →
      GateRunner.preOverrideResult [GateRunner.Checkpoint.mk "G1" "tool_error" [] []] []
        = "BLOCKED_WITH_RECOVERY_PLAN") ∧
    ((∀ c ∈ [GateRunner.Checkpoint.mk "G1" "tool_error" [] []], c.status ≠ "tool_error") →
      (∃ c ∈ [GateRunner.Checkpoint.mk "G1" "tool_error" [] []], c.status = "policy_fail") →
      ((∃ c ∈ [GateRunner.Checkpoint.mk "G1" "tool_error" [] []],
          ∃ code ∈ c.reasonCodes, code ∈ GateRunner.blockedCodes) →
        GateRunner.preOverrideResult [GateRunner.Checkpoint.mk "G1" "tool_error" [] []] []
          = "BLOCKED_WITH_RECOVERY_PLAN") ∧
      ((∀ c ∈ [GateRunner.Checkpoint.mk "G1" "tool_error" [] []],
          ∀ code ∈ c.reasonCodes, code ∉ GateRunner.blockedCodes) →
        GateRunner.preOverrideResult [GateRunner.Checkpoint.mk "G1" "tool_error" [] []] []
          = "NO_GO")) ∧
    ((∀ c ∈ [GateRunner.Checkpoint.mk "G1" "tool_error" [] []],
        c.status = "pass" ∨ c.status = "skipped") →
      GateRunner.preOverrideResult [GateRunner.Checkpoint.mk "G1" "tool_error" [] []] []
        = "PAPER_ONLY_GO") :=
  verdict_base_result [GateRunner.Checkpoint.mk "G1" "tool_error" [] []] []

/-! ## C2 — reason codes canonical or escalated -/

theorem applyAllowedOutputs_reasons (cfg : GateRunner.DecisionCfg)
    (v : String × List String × List String) :
    (GateRunner.applyAllowedOutputs cfg v).2.1 = v.2.1 ∨
    (GateRunner.applyAllowedOutputs cfg v).2.1
      = dedup (v.2.1 ++ ["HARD_RELEASE_GATE_BLOCKED"]) := by
  unfold GateRunner.applyAllowedOutputs
  rcases cfg.allowed_outputs with - | allowed
  · exact Or.inl rfl
  · simp only
    split
    · exact Or.inr rfl
    · exact Or.inl rfl

theorem applyArchiveOnly_reasons (sf : GateRunner.SourceFallbackPolicy)
    (v : String × List String × List String) :
    (GateRunner.applyArchiveOnly sf v).2.1 = v.2.1 ∨
    (GateRunner.applyArchiveOnly sf v).2.1
      = dedup (v.2.1 ++ ["HARD_RELEASE_GATE_BLOCKED"]) := by
  simp only [GateRunner.applyArchiveOnly]
  split
  · split
    · exact Or.inr rfl
    · exact Or.inl rfl
  · exact Or.inl rfl

theorem inv_dedup_append (canonical l : List String) (x : String)
    (hx : x ∈ canonical)
    (hinv : ∀ code ∈ l, code ∈ canonical ∨ "HARD_REASON_CODE_UNKNOWN" ∈ l) :
    ∀ code ∈ dedup (l ++ [x]),
      code ∈ canonical ∨ "HARD_REASON_CODE_UNKNOWN" ∈ dedup (l ++ [x]) := by
  intro code hcode
  rw [mem_dedup, List.mem_append, List.mem_singleton] at hcode
  rcases hcode with h | h
  · rcases hinv code h with h2 | h2
    · exact Or.inl h2
    · exact Or.inr (by rw [mem_dedup, List.mem_append]; exact Or.inl h2)
  · subst h; exact Or.inl hx

theorem inv_aggregated (cps : List GateRunner.Checkpoint) (canonical : List String) :
    ∀ code ∈ GateRunner.aggregatedReasons cps canonical,
      code ∈ canonical ∨
        "HARD_REASON_CODE_UNKNOWN" ∈ GateRunner.aggregatedReasons cps canonical := by
  simp only [GateRunner.aggregatedReasons]
  split
  · intro code hcode
    by_cases hc : code ∈ canonical
    · exact Or.inl hc
    · refine Or.inr ?_
      rw [mem_dedup, List.mem_append, List.mem_singleton]
      exact Or.inr rfl
  · next hfalse =>
    intro code hcode
    refine Or.inl ?_
    by_contra hc
    have : (dedup (cps.flatMap (·.reasonCodes))).any (· ∉ canonical) = true := by
      simp only [List.any_eq_true, decide_eq_true_eq]
      exact ⟨code, hcode, hc⟩
    exact hfalse this

/-- C2 (amended): provided the canonical set contains
`HARD_RELEASE_GATE_BLOCKED` — the only code the allowed-outputs and
archive_only overrides can add after the unknown-code check — every reason
code in the final verdict either belongs to the canonical set or the
verdict's `reasonCodes` also contains `HARD_REASON_CODE_UNKNOWN`. -/
theorem verdict_reason_codes_canonical (cps : List GateRunner.Checkpoint)
    (cfg : GateRunner.DecisionCfg) (sf : GateRunner.SourceFallbackPolicy)
    (canonical : List String) (code : String)
    (hB : "HARD_RELEASE_GATE_BLOCKED" ∈ canonical)
    (hcode : code ∈ (GateRunner.deriveVerdict cps cfg sf canonical).reasonCodes) :
    code ∈ canonical ∨
      "HARD_REASON_CODE_UNKNOWN"
        ∈ (GateRunner.deriveVerdict cps cfg sf canonical).reasonCodes := by
  have hinv0 := inv_aggregated cps canonical
  have hstep1 : ∀ code ∈ (GateRunner.applyAllowedOutputs cfg
      (GateRunner.preOverrideResult cps canonical,
       GateRunner.aggregatedReasons cps canonical,
       GateRunner.aggregatedIssues cps canonical)).2.1,
      code ∈ canonical ∨ "HARD_REASON_CODE_UNKNOWN" ∈ (GateRunner.applyAllowedOutputs cfg
        (GateRunner.preOverrideResult cps canonical,
         GateRunner.aggregatedReasons cps canonical,
         GateRunner.aggregatedIssues cps canonical)).2.1 := by
    obtain h | h := applyAllowedOutputs_reasons cfg
      (GateRunner.preOverrideResult cps canonical,
       GateRunner.aggregatedReasons cps canonical,
       GateRunner.aggregatedIssues cps canonical)
    · rw [h]; exact hinv0
    · rw [h]; exact inv_dedup_append canonical _ _ hB hinv0
  have hstep2 : ∀ code ∈ (GateRunner.applyArchiveOnly sf (GateRunner.applyAllowedOutputs cfg
      (GateRunner.preOverrideResult cps canonical,
       GateRunner.aggregatedReasons cps canonical,
       GateRunner.aggregatedIssues cps canonical))).2.1,
      code ∈ canonical ∨ "HARD_REASON_CODE_UNKNOWN" ∈ (GateRunner.applyArchiveOnly sf
        (GateRunner.applyAllowedOutputs cfg
          (GateRunner.preOverrideResult cps canonical,
           GateRunner.aggregatedReasons cps canonical,
           GateRunner.aggregatedIssues cps canonical))).2.1 := by
    obtain h | h := applyArchiveOnly_reasons sf (GateRunner.applyAllowedOutputs cfg
      (GateRunner.preOverrideResult cps canonical,
       GateRunner.aggregatedReasons cps canonical,
       GateRunner.aggregatedIssues cps canonical))
    · rw [h]; exact hstep1
    · rw [h]; exact inv_dedup_append canonical _ _ hB hstep1
  simp only [GateRunner.deriveVerdict] at hcode ⊢
  exact hstep2 code hcode

/-- Witness for C2 (amended): a checkpoint carrying an unknown code, with
`HARD_RELEASE_GATE_BLOCKED` canonical, is escalated. -/
theorem verdict_reason_codes_canonical_witness :
    "BOGUS_CODE" ∈ ["HARD_RELEASE_GATE_BLOCKED"] ∨
      "HARD_REASON_CODE_UNKNOWN"
        ∈ (GateRunner.deriveVerdict [GateRunner.Checkpoint.mk "G0" "pass" ["BOGUS_CODE"] []]
            ⟨none, none⟩ ⟨none, none⟩ ["HARD_RELEASE_GATE_BLOCKED"]).reasonCodes :=
  verdict_reason_codes_canonical [GateRunner.Checkpoint.mk "G0" "pass" ["BOGUS_CODE"] []]
    ⟨none, none⟩ ⟨none, none⟩ ["HARD_RELEASE_GATE_BLOCKED"] "BOGUS_CODE"
    (by decide) (by decide)

/-- Counterexample to C2 as stated: with an empty canonical set, one
passing checkpoint with no reason codes, and `decision.allowed_outputs`
set to the empty list, the override adds `HARD_RELEASE_GATE_BLOCKED` after
the unknown-code check, so the verdict carries a non-canonical code without
`HARD_REASON_CODE_UNKNOWN`. -/
theorem verdict_reason_codes_counterexample :
    "HARD_RELEASE_GATE_BLOCKED" ∈ (GateRunner.deriveVerdict
      [GateRunner.Checkpoint.mk "G0" "pass" [] []]
      ⟨none, some []⟩ ⟨none, none⟩ []).reasonCodes ∧
    "HARD_RELEASE_GATE_BLOCKED" ∉ ([] : List String) ∧
    "HARD_REASON_CODE_UNKNOWN" ∉ (GateRunner.deriveVerdict
      [GateRunner.Checkpoint.mk "G0" "pass" [] []]
      ⟨none, some []⟩ ⟨none, none⟩ []).reasonCodes := by
  decide

/-! ## C3 — retry contract -/

theorem runRem_ne_nil (g : Nat → String) (rs : List String) (attempt left : Nat) :
    GateRunner.runRem g rs attempt left ≠ [] := by
  rcases left with - | l <;> rw [GateRunner.runRem] <;>
    repeat' split <;> simp

theorem runRem_length (g : Nat → String) (rs : List String) :
    ∀ (left attempt : Nat), (GateRunner.runRem g rs attempt left).length ≤ left + 1 := by
  intro left
  induction left with
  | zero =>
    intro attempt
    rw [GateRunner.runRem]
    split <;> simp
  | succ l ih =>
    intro attempt
    rw [GateRunner.runRem]
    split
    · simp
    · split
      · have := ih (attempt + 1)
        simpa using Nat.succ_le_succ this
      · simp

theorem runRem_get (g : Nat → String) (rs : List String) :
    ∀ (k left attempt : Nat) (p : Nat × String),
      (GateRunner.runRem g rs attempt left).get? k = some p →
      p = (attempt + k, g (attempt + k)) ∧
      ((GateRunner.runRem g rs attempt left).get? (k + 1) ≠ none ↔
        (g (attempt + k) ≠ "pass" ∧ g (attempt + k) ∈ rs ∧ k < left)) := by
  intro k
  induction k with
  | zero =>
    intro left attempt p hp
    rw [GateRunner.runRem.eq_def] at hp ⊢
    by_cases hpass : g attempt = "pass"
    · rw [if_pos hpass] at hp ⊢
      refine ⟨by simpa using hp.symm, ?_⟩
      simp [hpass]
    · rw [if_neg hpass] at hp ⊢
      rcases left with - | l
      · simp only at hp ⊢
        refine ⟨by simpa using hp.symm, ?_⟩
        simp
      · simp only at hp ⊢
        by_cases hmem : g attempt ∈ rs
        · rw [if_pos hmem] at hp ⊢
          refine ⟨by simpa using hp.symm, ?_⟩
          have hne := runRem_ne_nil g rs (attempt + 1) l
          constructor
          · intro _; exact ⟨hpass, hmem, Nat.succ_pos l⟩
          · intro _
            simp only [List.get?_cons_succ]
            rw [Ne, List.get?_eq_none]
            intro hlen
            have := List.length_pos.mpr hne
            omega
        · rw [if_neg hmem] at hp ⊢
          refine ⟨by simpa using hp.symm, ?_⟩
          simp [hmem]
  | succ k ih =>
    intro left attempt p hp
    rw [GateRunner.runRem.eq_def] at hp ⊢
    by_cases hpass : g attempt = "pass"
    · rw [if_pos hpass] at hp
      simp at hp
    · rw [if_neg hpass] at hp ⊢
      rcases left with - | l
      · simp at hp
      · simp only at hp ⊢
        by_cases hmem : g attempt ∈ rs
        · rw [if_pos hmem] at hp ⊢
          simp only [List.get?_cons_succ] at hp ⊢
          have := ih l (attempt + 1) p hp
          have hidx : attempt + 1 + k = attempt + (k + 1) := by omega
          rw [hidx] at this
          refine ⟨this.1, ?_⟩
          rw [this.2]
          constructor
          · rintro ⟨h1, h2, h3⟩
            exact ⟨h1, h2, by omega⟩
          · rintro ⟨h1, h2, h3⟩
            exact ⟨h1, h2, by omega⟩
        · rw [if_neg hmem] at hp
          simp at hp

/-- C3: the supervisor makes at most `1 + retries.<gate>.max_attempts`
attempts (defaults 0); when the profile omits `retry_on_status` the retry
set defaults to `[tool_error]`; under the profile data model
(`retry_on_status ⊆ {tool_error, policy_fail}`), a non-final attempt is
followed by another attempt iff its status is in the retry set; and an
attempt with status `pass` is never followed by another attempt. -/
theorem gate_retry_contract (profile : GateRunner.ProfileRetry) (gate : String)
    (g : Nat → String) (k n : Nat) (s : String)
    (hsub : ∀ st ∈ GateRunner.retryStatuses profile,
      st = "tool_error" ∨ st = "policy_fail")
    (hget : (GateRunner.attemptsRun g profile gate).get? k = some (n, s)) :
    n = k + 1 ∧ s = g (k + 1) ∧
    (GateRunner.attemptsRun g profile gate).length
      ≤ 1 + (GateRunner.gateRetryCfg profile gate).1 ∧
    (profile.retry_on_status = none →
      GateRunner.retryStatuses profile = ["tool_error"]) ∧
    (profile.retries = none → GateRunner.gateRetryCfg profile gate = (0, 0)) ∧
    (n < 1 + (GateRunner.gateRetryCfg profile gate).1 →
      ((GateRunner.attemptsRun g profile gate).get? (k + 1) ≠ none ↔
        s ∈ GateRunner.retryStatuses profile)) ∧
    (s = "pass" → (GateRunner.attemptsRun g profile gate).get? (k + 1) = none) := by
  have hspec := runRem_get g (GateRunner.retryStatuses profile) k
    (GateRunner.gateRetryCfg profile gate).1 1 (n, s) hget
  have hn : n = k + 1 := by
    have := congrArg Prod.fst hspec.1
    simpa [Nat.add_comm] using this
  have hs : s = g (k + 1) := by
    have := congrArg Prod.snd hspec.1
    simpa [Nat.add_comm 1 k] using this
  have hone : (1 : Nat) + k = k + 1 := Nat.add_comm 1 k
  refine ⟨hn, hs, ?_, ?_, ?_, ?_, ?_⟩
  · have := runRem_length g (GateRunner.retryStatuses profile)
      (GateRunner.gateRetryCfg profile gate).1 1
    simpa [GateRunner.attemptsRun, Nat.add_comm] using this
  · intro h
    simp [GateRunner.retryStatuses, h]
  · intro h
    simp [GateRunner.gateRetryCfg, h]
  · intro hlt
    simp only [GateRunner.attemptsRun]
    rw [hspec.2, hone, ← hs]
    constructor
    · rintro ⟨-, h2, -⟩; exact h2
    · intro hmem
      refine ⟨?_, hmem, by omega⟩
      rcases hsub s hmem with h | h <;> rw [h] <;> decide
  · intro hpass
    by_cases hnone : (GateRunner.attemptsRun g profile gate).get? (k + 1) = none
    · exact hnone
    · have := hspec.2.mp hnone
      rw [hone, ← hs] at this
      exact absurd hpass this.1

/-- Witness for C3: gate `G1` with `max_attempts = 2`, default retry
statuses, first attempt `tool_error`, second `pass`: the run is
`[(1, tool_error), (2, pass)]`. -/
theorem gate_retry_contract_witness :
    (1 : Nat) = 0 + 1 ∧ ("tool_error" : String) = (fun x => if x = 1 then "tool_error" else "pass") (0 + 1) ∧
    (GateRunner.attemptsRun (fun x => if x = 1 then "tool_error" else "pass")
      ⟨some [("G1", some ⟨some 2, some 0⟩)], none⟩ "G1").length
      ≤ 1 + (GateRunner.gateRetryCfg ⟨some [("G1", some ⟨some 2, some 0⟩)], none⟩ "G1").1 ∧
    ((GateRunner.ProfileRetry.mk (some [("G1", some ⟨some 2, some 0⟩)]) none).retry_on_status = none →
      GateRunner.retryStatuses ⟨some [("G1", some ⟨some 2, some 0⟩)], none⟩ = ["tool_error"]) ∧
    ((GateRunner.ProfileRetry.mk (some [("G1", some ⟨some 2, some 0⟩)]) none).retries = none →
      GateRunner.gateRetryCfg ⟨some [("G1", some ⟨some 2, some 0⟩)], none⟩ "G1" = (0, 0)) ∧
    ((1 : Nat) < 1 + (GateRunner.gateRetryCfg ⟨some [("G1", some ⟨some 2, some 0⟩)], none⟩ "G1").1 →
      ((GateRunner.attemptsRun (fun x => if x = 1 then "tool_error" else "pass")
        ⟨some [("G1", some ⟨some 2, some 0⟩)], none⟩ "G1").get? (0 + 1) ≠ none ↔
        ("tool_error" : String) ∈ GateRunner.retryStatuses ⟨some [("G1", some ⟨some 2, some 0⟩)], none⟩)) ∧
    (("tool_error" : String) = "pass" →
      (GateRunner.attemptsRun (fun x => if x = 1 then "tool_error" else "pass")
        ⟨some [("G1", some ⟨some 2, some 0⟩)], none⟩ "G1").get? (0 + 1) = none) :=
  gate_retry_contract ⟨some [("G1", some ⟨some 2, some 0⟩)], none⟩ "G1"
    (fun x => if x = 1 then "tool_error" else "pass") 0 1 "tool_error"
    (by decide) (by decide)

/-! ## C4 — runner-guard rates -/

theorem countRow_timeout_if (r : RunnerGuard.HistoryRow) (p : String → Bool) :
    (if r.blockingIssues = none then 0 else
      ((r.blockingIssues.getD []).filter p).length)
      = ((r.blockingIssues.getD []).filter p).length := by
  rcases h : r.blockingIssues with - | l <;> simp [h]

theorem foldl_countRow (l : List RunnerGuard.HistoryRow) :
    ∀ acc : Nat × Nat × Nat,
      l.foldl RunnerGuard.countRow acc =
        (acc.1 + (l.filter (fun r => r.status = some "tool_error" ∨
            r.status = some "policy_fail")).length,
         acc.2.1 + (l.map (fun r => ((r.blockingIssues.getD []).filter
            (fun issue => strContains (strLower issue) "timeout")).length)).sum,
         acc.2.2 + (l.map (fun r => ((r.blockingIssues.getD []).filter
            (fun issue => strContains (strLower issue) "retry storm")).length)).sum) := by
  induction l with
  | nil => intro acc; simp
  | cons r t ih =>
    intro acc
    rw [List.foldl_cons, ih]
    simp only [RunnerGuard.countRow, countRow_timeout_if]
    by_cases hr : r.status = some "tool_error" ∨ r.status = some "policy_fail" <;>
      simp [hr, List.filter_cons] <;> omega

/-- C4 (amended): `failRate` is the number of checkpoints with status
`tool_error` or `policy_fail` divided by `N`; `timeoutRate` and
`retryStormRate` divide the total number of matching blocking *issues*
(summed over all checkpoints, so one checkpoint can contribute more than
once) by `N`; an empty history yields all rates zero. -/
theorem runner_guard_rates (history : List RunnerGuard.HistoryRow)
    (hne : history ≠ []) :
    (RunnerGuard.compute_rates history).failRate =
      ((history.filter (fun r => r.status = some "tool_error" ∨
        r.status = some "policy_fail")).length : ℚ) / history.length ∧
    (RunnerGuard.compute_rates history).timeoutRate =
      (((history.map (fun r => ((r.blockingIssues.getD []).filter
        (fun issue => strContains (strLower issue) "timeout")).length)).sum : ℕ) : ℚ)
        / history.length ∧
    (RunnerGuard.compute_rates history).retryStormRate =
      (((history.map (fun r => ((r.blockingIssues.getD []).filter
        (fun issue => strContains (strLower issue) "retry storm")).length)).sum : ℕ) : ℚ)
        / history.length ∧
    RunnerGuard.compute_rates [] =
      { total := 0, failRate := 0, timeoutRate := 0, retryStormRate := 0 } := by
  have hlen : history.length ≠ 0 := by
    intro h; exact hne (List.length_eq_zero.mp h)
  refine ⟨?_, ?_, ?_, by simp [RunnerGuard.compute_rates]⟩ <;>
    simp [RunnerGuard.compute_rates, hne, foldl_countRow]

/-- Witness for C4 (amended) on a one-checkpoint history whose single
checkpoint carries two "timeout" issues. -/
theorem runner_guard_rates_witness :
    (RunnerGuard.compute_rates [⟨some "pass", some ["timeout a", "timeout b"]⟩]).failRate =
      ((([⟨some "pass", some ["timeout a", "timeout b"]⟩] :
        List RunnerGuard.HistoryRow).filter (fun r => r.status = some "tool_error" ∨
        r.status = some "policy_fail")).length : ℚ) /
        ([⟨some "pass", some ["timeout a", "timeout b"]⟩] :
          List RunnerGuard.HistoryRow).length ∧
    (RunnerGuard.compute_rates [⟨some "pass", some ["timeout a", "timeout b"]⟩]).timeoutRate =
      (((([⟨some "pass", some ["timeout a", "timeout b"]⟩] :
        List RunnerGuard.HistoryRow).map (fun r => ((r.blockingIssues.getD []).filter
        (fun issue => strContains (strLower issue) "timeout")).length)).sum : ℕ) : ℚ) /
        ([⟨some "pass", some ["timeout a", "timeout b"]⟩] :
          List RunnerGuard.HistoryRow).length ∧
    (RunnerGuard.compute_rates [⟨some "pass", some ["timeout a", "timeout b"]⟩]).retryStormRate =
      (((([⟨some "pass", some ["timeout a", "timeout b"]⟩] :
        List RunnerGuard.HistoryRow).map (fun r => ((r.blockingIssues.getD []).filter
        (fun issue => strContains (strLower issue) "retry storm")).length)).sum : ℕ) : ℚ) /
        ([⟨some "pass", some ["timeout a", "timeout b"]⟩] :
          List RunnerGuard.HistoryRow).length ∧
    RunnerGuard.compute_rates [] =
      { total := 0, failRate := 0, timeoutRate := 0, retryStormRate := 0 } :=
  runner_guard_rates [⟨some "pass", some ["timeout a", "timeout b"]⟩] (by decide)

/-- Counterexample to C4 as stated: a single checkpoint with two blocking
issues both containing "timeout" yields `timeoutRate = 2`, while the
claim's checkpoint-level count yields `1`. -/
theorem runner_guard_rates_counterexample :
    (RunnerGuard.compute_rates
      [⟨some "pass", some ["timeout a", "timeout b"]⟩]).timeoutRate = 2 ∧
    RunnerGuard.claimTimeoutRate
      [⟨some "pass", some ["timeout a", "timeout b"]⟩] = 1 ∧
    (2 : ℚ) ≠ 1 := by
  have hfold : List.foldl RunnerGuard.countRow (0, 0, 0)
      [(⟨some "pass", some ["timeout a", "timeout b"]⟩ : RunnerGuard.HistoryRow)]
      = (0, 2, 0) := by decide
  have hcount : List.countP (fun r => (r.blockingIssues.getD []).any
      (fun issue => strContains (strLower issue) "timeout"))
      [(⟨some "pass", some ["timeout a", "timeout b"]⟩ : RunnerGuard.HistoryRow)] = 1 := by
    decide
  have hrow : RunnerGuard.countRow (0 : Nat × Nat × Nat)
      (⟨some "pass", some ["timeout a", "timeout b"]⟩ : RunnerGuard.HistoryRow)
      = (0, 2, 0) := by decide
  refine ⟨?_, ?_, by norm_num⟩
  · norm_num [RunnerGuard.compute_rates, hfold, hrow]
  · norm_num [RunnerGuard.claimTimeoutRate, hcount]

/-! ## C7 — state-machine replay validity -/

theorem step_errors_extend (st : Replay.LoopState) (n : Nat) (r : Replay.Record) :
    ∃ ex, (Replay.step st n r).errors = st.errors ++ ex := by
  simp only [Replay.step]
  rcases hto : Replay.resolveTo r with - | t
  · exact ⟨_, rfl⟩
  · simp only
    split
    · exact ⟨_, rfl⟩
    · split
      · exact ⟨_, rfl⟩
      · rcases hres : Replay.resolveFrom r with - | fs
        · simp only [hres]
          rcases hcur : st.currentState with - | c
          · exact ⟨[], (List.append_nil _).symm⟩
          · simp only
            split
            · exact ⟨[], (List.append_nil _).symm⟩
            · exact ⟨_, rfl⟩
        · simp only [hres]
          split
          · exact ⟨[], (List.append_nil _).symm⟩
          · exact ⟨_, rfl⟩

theorem runLoop_errors_mono (recs : List Replay.Record) :
    ∀ (st : Replay.LoopState) (n : Nat), st.errors ≠ [] →
      (Replay.runLoop st n recs).errors ≠ [] := by
  induction recs with
  | nil => intro st n h; exact h
  | cons r rest ih =>
    intro st n h
    rw [Replay.runLoop]
    apply ih
    obtain ⟨ex, hex⟩ := step_errors_extend st n r
    rw [hex]
    intro hc
    exact h (List.append_eq_nil.mp hc).1

theorem runLoop_valid_iff (recs : List Replay.Record) :
    ∀ (st : Replay.LoopState) (n : Nat), st.errors = [] →
      ((Replay.runLoop st n recs).errors = [] ↔
        Replay.validLog st.currentState recs = true) := by
  induction recs with
  | nil =>
    intro st n h
    simp [Replay.runLoop, Replay.validLog, h]
  | cons r rest ih =>
    intro st n h
    rw [Replay.runLoop, Replay.validLog]
    rcases hto : Replay.resolveTo r with - | t
    · have hstep : (Replay.step st n r).errors = st.errors ++ ["cannot determine to-state"] := by
        simp only [Replay.step, hto]
      have hne : (Replay.runLoop (Replay.step st n r) (n + 1) rest).errors ≠ [] := by
        apply runLoop_errors_mono
        rw [hstep, h]; simp
      simp [hne]
    · by_cases hts : t ∈ Replay.stateSet
      · rcases hres : Replay.resolveFrom r with - | fs
        · rcases hcur : st.currentState with - | c
          · have hstep : (Replay.step st n r).errors = st.errors ∧
                (Replay.step st n r).currentState = some t := by
              simp only [Replay.step, hto, hres, hcur]
              simp [hts]
            rw [ih (Replay.step st n r) (n + 1) (by rw [hstep.1]; exact h), hstep.2]
            simp [hts]
          · by_cases hcs : c ∈ Replay.stateSet
            · by_cases hal : t ∈ Replay.allowedTransitions c
              · have hstep : (Replay.step st n r).errors = st.errors ∧
                    (Replay.step st n r).currentState = some t := by
                  simp only [Replay.step, hto, hres, hcur]
                  simp [hts, hcs, hal]
                rw [ih (Replay.step st n r) (n + 1) (by rw [hstep.1]; exact h), hstep.2]
                simp [hts, hcs, hal]
              · have hstep : (Replay.step st n r).errors = st.errors ++ ["invalid transition"] := by
                  simp only [Replay.step, hto, hres, hcur]
                  simp [hts, hcs, hal]
                have hne : (Replay.runLoop (Replay.step st n r) (n + 1) rest).errors ≠ [] := by
                  apply runLoop_errors_mono
                  rw [hstep, h]; simp
                simp [hne, hts, hcs, hal]
            · have hstep : (Replay.step st n r).errors = st.errors ++ ["unknown from-state"] := by
                simp only [Replay.step, hto, hres, hcur]
                simp [hts, hcs]
              have hne : (Replay.runLoop (Replay.step st n r) (n + 1) rest).errors ≠ [] := by
                apply runLoop_errors_mono
                rw [hstep, h]; simp
              simp [hne, hts, hcs]
        · by_cases hcs : fs ∈ Replay.stateSet
          · by_cases hal : t ∈ Replay.allowedTransitions fs
            · have hstep : (Replay.step st n r).errors = st.errors ∧
                  (Replay.step st n r).currentState = some t := by
                simp only [Replay.step, hto, hres]
                simp [hts, hcs, hal]
              rw [ih (Replay.step st n r) (n + 1) (by rw [hstep.1]; exact h), hstep.2]
              simp [hts, hcs, hal]
            · have hstep : (Replay.step st n r).errors = st.errors ++ ["invalid transition"] := by
                simp only [Replay.step, hto, hres]
                simp [hts, hcs, hal]
              have hne : (Replay.runLoop (Replay.step st n r) (n + 1) rest).errors ≠ [] := by
                apply runLoop_errors_mono
                rw [hstep, h]; simp
              simp [hne, hts, hcs, hal]
          · have hstep : (Replay.step st n r).errors = st.errors ++ ["unknown from-state"] := by
              simp only [Replay.step, hto, hres]
              simp [hts, hcs]
            have hne : (Replay.runLoop (Replay.step st n r) (n + 1) rest).errors ≠ [] := by
              apply runLoop_errors_mono
              rw [hstep, h]; simp
            simp [hne, hts, hcs]
      · have hstep : (Replay.step st n r).errors = st.errors ++ ["unknown state"] := by
          simp only [Replay.step, hto]
          simp [hts]
        have hne : (Replay.runLoop (Replay.step st n r) (n + 1) rest).errors ≠ [] := by
          apply runLoop_errors_mono
          rw [hstep, h]; simp
        simp [hne, hto, hts]

theorem validLog_stripTs (l : List Replay.Record) :
    ∀ c, Replay.validLog c (l.map Replay.stripTs) = Replay.validLog c l := by
  induction l with
  | nil => intro c; rfl
  | cons r rest ih =>
    intro c
    rw [List.map_cons, Replay.validLog, Replay.validLog]
    have hto : Replay.resolveTo (Replay.stripTs r) = Replay.resolveTo r := rfl
    have hfrom : Replay.resolveFrom (Replay.stripTs r) = Replay.resolveFrom r := rfl
    rw [hto, hfrom]
    rcases Replay.resolveTo r with - | t
    · rfl
    · simp only
      split
      · rfl
      · rcases Replay.resolveFrom r with - | fs
        · simp only
          rcases c with - | c
          · exact ih (some t)
          · simp only
            split
            · rfl
            · split
              · rfl
              · exact ih (some t)
        · simp only
          split
          · rfl
          · split
            · rfl
            · exact ih (some t)

/-- C7 (amended): the replay report is valid iff every line resolves a
known to-state, every explicitly given from-state is a known state, and
every transition whose from-state is known (explicitly or inherited) is in
the allowed-transitions table — the `validLog` predicate; an empty or
missing log is invalid with exit code 2; removing all timestamps never
changes validity (out-of-order timestamps only produce warnings); and the
three-transition log NORMAL→NORMAL→WATCH→NORMAL is valid with final state
NORMAL and transition count 3. -/
theorem replay_report_validity (log : List Replay.Record) :
    ((Replay.replayMain (some log)).1.valid = true ↔
      (log ≠ [] ∧ Replay.validLog none log = true)) ∧
    (Replay.replayMain none).1.valid = false ∧
    (Replay.replayMain none).2 = 2 ∧
    (Replay.replayMain (some ([] : List Replay.Record))).1.valid = false ∧
    (Replay.replayMain (some ([] : List Replay.Record))).2 = 2 ∧
    ((Replay.replayMain (some (log.map Replay.stripTs))).1.valid
      = (Replay.replayMain (some log)).1.valid) ∧
    (Replay.replayMain (some
      [⟨some "NORMAL", none, none, none, some "NORMAL", none, none, none, none⟩,
       ⟨some "NORMAL", none, none, none, some "WATCH", none, none, none, none⟩,
       ⟨some "WATCH", none, none, none, some "NORMAL", none, none, none, none⟩])).1.valid = true ∧
    (Replay.replayMain (some
      [⟨some "NORMAL", none, none, none, some "NORMAL", none, none, none, none⟩,
       ⟨some "NORMAL", none, none, none, some "WATCH", none, none, none, none⟩,
       ⟨some "WATCH", none, none, none, some "NORMAL", none, none, none, none⟩])).1.finalState
      = some "NORMAL" ∧
    (Replay.replayMain (some
      [⟨some "NORMAL", none, none, none, some "NORMAL", none, none, none, none⟩,
       ⟨some "NORMAL", none, none, none, some "WATCH", none, none, none, none⟩,
       ⟨some "WATCH", none, none, none, some "NORMAL", none, none, none, none⟩])).1.transitionCount
      = 3 := by
  have hmain : ∀ (l : List Replay.Record), l ≠ [] →
      ((Replay.replayMain (some l)).1.valid = true ↔ Replay.validLog none l = true) := by
    intro l hl
    rcases l with - | ⟨r, rest⟩
    · exact absurd rfl hl
    · simp only [Replay.replayMain]
      rw [decide_eq_true_eq, List.length_eq_zero]
      exact runLoop_valid_iff (r :: rest) Replay.initLoop 1 rfl
  refine ⟨?_, rfl, rfl, rfl, rfl, ?_, by decide, by decide, by decide⟩
  · rcases heq : log with - | ⟨r, rest⟩
    · simp [Replay.replayMain]
    · rw [hmain (r :: rest) (List.cons_ne_nil r rest)]
      simp
  · rcases heq : log with - | ⟨r, rest⟩
    · rfl
    · rw [← heq]
      have hne : log ≠ [] := by rw [heq]; exact List.cons_ne_nil r rest
      have hne2 : log.map Replay.stripTs ≠ [] := by
        rw [Ne, List.map_eq_nil_iff]; exact hne
      have h1 := hmain log hne
      have h2 := hmain (log.map Replay.stripTs) hne2
      rw [validLog_stripTs log none] at h2
      by_cases hv : Replay.validLog none log = true
      · rw [(h1.mpr hv), (h2.mpr hv)]
      · have e1 : (Replay.replayMain (some log)).1.valid = false := by
          rw [Bool.eq_false_iff]; intro hc; exact hv (h1.mp hc)
        have e2 : (Replay.replayMain (some (log.map Replay.stripTs))).1.valid = false := by
          rw [Bool.eq_false_iff]; intro hc; exact hv (h2.mp hc)
        rw [e1, e2]

/-- Counterexample to C7 as stated: the one-line log
`{"from": "BOGUS", "to": "NORMAL"}` satisfies the claim's condition —
its to-state resolves to the known state NORMAL and the report records no
transition with a known from-state (its transition list is empty) — yet
the replay is invalid (exit code 2), because an explicitly given unknown
from-state is an error case the claim's iff does not cover. -/
theorem replay_report_validity_counterexample :
    Replay.claimReplayCond
      [⟨some "BOGUS", none, none, none, some "NORMAL", none, none, none, none⟩] = true ∧
    Replay.resolveTo
      ⟨some "BOGUS", none, none, none, some "NORMAL", none, none, none, none⟩
      = some "NORMAL" ∧
    (Replay.replayMain (some
      [⟨some "BOGUS", none, none, none, some "NORMAL", none, none, none, none⟩])).1.valid
      = false ∧
    (Replay.replayMain (some
      [⟨some "BOGUS", none, none, none, some "NORMAL", none, none, none, none⟩])).2 = 2 := by
  refine ⟨by decide, by decide, by decide, by decide⟩

/-- Witness for C7 (amended), at the log consisting of the single record
`{"from": "NORMAL", "to": "WATCH"}` (valid, one transition). -/
theorem replay_report_validity_witness :
    ((Replay.replayMain (some
      [⟨some "NORMAL", none, none, none, some "WATCH", none, none, none, none⟩])).1.valid = true ↔
      (([⟨some "NORMAL", none, none, none, some "WATCH", none, none, none, none⟩] :
        List Replay.Record) ≠ [] ∧
       Replay.validLog none
        [⟨some "NORMAL", none, none, none, some "WATCH", none, none, none, none⟩] = true)) ∧
    (Replay.replayMain none).1.valid = false ∧
    (Replay.replayMain none).2 = 2 ∧
    (Replay.replayMain (some ([] : List Replay.Record))).1.valid = false ∧
    (Replay.replayMain (some ([] : List Replay.Record))).2 = 2 ∧
    ((Replay.replayMain (some (([⟨some "NORMAL", none, none, none, some "WATCH", none, none, none, none⟩] :
        List Replay.Record).map Replay.stripTs))).1.valid
      = (Replay.replayMain (some
        [⟨some "NORMAL", none, none, none, some "WATCH", none, none, none, none⟩])).1.valid) ∧
    (Replay.replayMain (some
      [⟨some "NORMAL", none, none, none, some "NORMAL", none, none, none, none⟩,
       ⟨some "NORMAL", none, none, none, some "WATCH", none, none, none, none⟩,
       ⟨some "WATCH", none, none, none, some "NORMAL", none, none, none, none⟩])).1.valid = true ∧
    (Replay.replayMain (some
      [⟨some "NORMAL", none, none, none, some "NORMAL", none, none, none, none⟩,
       ⟨some "NORMAL", none, none, none, some "WATCH", none, none, none, none⟩,
       ⟨some "WATCH", none, none, none, some "NORMAL", none, none, none, none⟩])).1.finalState
      = some "NORMAL" ∧
    (Replay.replayMain (some
      [⟨some "NORMAL", none, none, none, some "NORMAL", none, none, none, none⟩,
       ⟨some "NORMAL", none, none, none, some "WATCH", none, none, none, none⟩,
       ⟨some "WATCH", none, none, none, some "NORMAL", none, none, none, none⟩])).1.transitionCount
      = 3 :=
  replay_report_validity
    [⟨some "NORMAL", none, none, none, some "WATCH", none, none, none, none⟩]

/-! ## C8 — migration compare -/

theorem validate_eq_nil_iff (name : String) (p : Migration.VPayload) :
    Migration.validate_verdict_payload name p = [] ↔
      Migration.payloadWellTyped p = true := by
  unfold Migration.validate_verdict_payload Migration.payloadWellTyped
  rw [List.append_eq_nil, List.append_eq_nil]
  have hA : ((Migration.requiredChecks p).filterMap
      (fun fc => if fc.2 then none else some (name ++ ": field " ++ fc.1 ++ " has wrong type"))
      = []) ↔ (Migration.requiredChecks p).all (·.2) = true := by
    rw [List.filterMap_eq_nil_iff, List.all_eq_true]
    constructor
    · intro h fc hfc
      have := h fc hfc
      by_cases hb : fc.2 = true
      · exact hb
      · rw [if_neg (by simp [hb])] at this; exact absurd this (by simp)
    · intro h fc hfc
      rw [if_pos (h fc hfc)]
  have hB : ((match p.result with
      | some (Migration.JVal.str r) =>
        if r ≠ "NO_GO" ∧ r ≠ "PAPER_ONLY_GO" ∧ r ≠ "BLOCKED_WITH_RECOVERY_PLAN" then
          [name ++ ": result has invalid enum value"]
        else []
      | _ => []) = []) ↔ Migration.resultEnumOk p = true := by
    unfold Migration.resultEnumOk
    rcases p.result with - | jv
    · simp
    · rcases jv with s | q | bb | xs | fs
      · simp
        tauto
      · simp
      · simp
      · simp
      · simp
  have hC : ((match p.reasonCodes with
      | some (Migration.JVal.arr items) =>
        if items.any (fun item => match item with
          | Migration.JVal.str _ => false | _ => true) then
          [name ++ ": reasonCodes must contain only strings"]
        else []
      | _ => []) = []) ↔ Migration.reasonCodesAllStr p = true := by
    unfold Migration.reasonCodesAllStr
    rcases p.reasonCodes with - | jv
    · simp
    · rcases jv with s | q | bb | xs | fs <;> simp
  rw [hA, hB, hC]
  simp [Bool.and_eq_true]

/-- C8 (amended): the migration compare validates each document for the
fields version, generatedAt, runId, result, decisionWeight, reasonCodes,
profileHash, thresholdsHash, statisticsLockHash, registryVersion and
metricVersions — but not blockingIssues — with `result` in the verdict
enum and all reason codes strings; when either document fails it exits 2
with per-field error messages; when both pass it exits 0 iff the results
are equal and no reason code occurs only in the candidate. -/
theorem migration_compare_contract (b c : Migration.VPayload) :
    (Migration.validate_verdict_payload "baseline" b = [] ↔
      Migration.payloadWellTyped b = true) ∧
    (Migration.validate_verdict_payload "candidate" c = [] ↔
      Migration.payloadWellTyped c = true) ∧
    (¬ (Migration.payloadWellTyped b = true ∧ Migration.payloadWellTyped c = true) →
      (Migration.migrationMain b c).1 = 2 ∧ (Migration.migrationMain b c).2 ≠ []) ∧
    ((Migration.payloadWellTyped b = true ∧ Migration.payloadWellTyped c = true) →
      ((Migration.migrationMain b c).1 = 0 ↔
        ((Migration.compare_verdicts b c).sameResult = true ∧
         (Migration.compare_verdicts b c).onlyInCandidate = []))) := by
  refine ⟨validate_eq_nil_iff "baseline" b, validate_eq_nil_iff "candidate" c, ?_, ?_⟩
  · intro hnot
    have herr : Migration.validate_verdict_payload "baseline" b
        ++ Migration.validate_verdict_payload "candidate" c ≠ [] := by
      intro hc
      rcases List.append_eq_nil.mp hc with ⟨h1, h2⟩
      exact hnot ⟨(validate_eq_nil_iff "baseline" b).mp h1,
        (validate_eq_nil_iff "candidate" c).mp h2⟩
    have hlen : (Migration.validate_verdict_payload "baseline" b
        ++ Migration.validate_verdict_payload "candidate" c).length ≠ 0 := by
      rw [Ne, List.length_eq_zero]; exact herr
    unfold Migration.migrationMain
    rw [if_pos hlen]
    exact ⟨rfl, herr⟩
  · rintro ⟨h1, h2⟩
    have e1 := (validate_eq_nil_iff "baseline" b).mpr h1
    have e2 := (validate_eq_nil_iff "candidate" c).mpr h2
    have hlen : ¬ ((Migration.validate_verdict_payload "baseline" b
        ++ Migration.validate_verdict_payload "candidate" c).length ≠ 0) := by
      rw [e1, e2]; simp
    unfold Migration.migrationMain
    rw [if_neg hlen]
    by_cases hcond : (Migration.compare_verdicts b c).sameResult = true ∧
        (Migration.compare_verdicts b c).onlyInCandidate = []
    · rw [if_pos hcond]
      simp [hcond]
    · rw [if_neg hcond]
      simp [hcond]

/-- Witness for C8 (amended): two well-typed, identical verdict documents
compare equal and exit 0. -/
theorem migration_compare_contract_witness :
    (Migration.validate_verdict_payload "baseline"
      ⟨some (.str "v2"), some (.str "t"), some (.str "r"), some (.str "NO_GO"),
       some (.str "limited"), some (.arr []), none, some (.str "p"), some (.str "th"),
       some (.str "sl"), some (.str "rv"), some (.obj [])⟩ = [] ↔
      Migration.payloadWellTyped
      ⟨some (.str "v2"), some (.str "t"), some (.str "r"), some (.str "NO_GO"),
       some (.str "limited"), some (.arr []), none, some (.str "p"), some (.str "th"),
       some (.str "sl"), some (.str "rv"), some (.obj [])⟩ = true) ∧
    (Migration.validate_verdict_payload "candidate"
      ⟨some (.str "v2"), some (.str "t"), some (.str "r"), some (.str "NO_GO"),
       some (.str "limited"), some (.arr []), none, some (.str "p"), some (.str "th"),
       some (.str "sl"), some (.str "rv"), some (.obj [])⟩ = [] ↔
      Migration.payloadWellTyped
      ⟨some (.str "v2"), some (.str "t"), some (.str "r"), some (.str "NO_GO"),
       some (.str "limited"), some (.arr []), none, some (.str "p"), some (.str "th"),
       some (.str "sl"), some (.str "rv"), some (.obj [])⟩ = true) ∧
    (¬ (Migration.payloadWellTyped
      ⟨some (.str "v2"), some (.str "t"), some (.str "r"), some (.str "NO_GO"),
       some (.str "limited"), some (.arr []), none, some (.str "p"), some (.str "th"),
       some (.str "sl"), some (.str "rv"), some (.obj [])⟩ = true ∧
      Migration.payloadWellTyped
      ⟨some (.str "v2"), some (.str "t"), some (.str "r"), some (.str "NO_GO"),
       some (.str "limited"), some (.arr []), none, some (.str "p"), some (.str "th"),
       some (.str "sl"), some (.str "rv"), some (.obj [])⟩ = true) →
      (Migration.migrationMain
        ⟨some (.str "v2"), some (.str "t"), some (.str "r"), some (.str "NO_GO"),
         some (.str "limited"), some (.arr []), none, some (.str "p"), some (.str "th"),
         some (.str "sl"), some (.str "rv"), some (.obj [])⟩
        ⟨some (.str "v2"), some (.str "t"), some (.str "r"), some (.str "NO_GO"),
         some (.str "limited"), some (.arr []), none, some (.str "p"), some (.str "th"),
         some (.str "sl"), some (.str "rv"), some (.obj [])⟩).1 = 2 ∧
      (Migration.migrationMain
        ⟨some (.str "v2"), some (.str "t"), some (.str "r"), some (.str "NO_GO"),
         some (.str "limited"), some (.arr []), none, some (.str "p"), some (.str "th"),
         some (.str "sl"), some (.str "rv"), some (.obj [])⟩
        ⟨some (.str "v2"), some (.str "t"), some (.str "r"), some (.str "NO_GO"),
         some (.str "limited"), some (.arr []), none, some (.str "p"), some (.str "th"),
         some (.str "sl"), some (.str "rv"), some (.obj [])⟩).2 ≠ []) ∧
    ((Migration.payloadWellTyped
      ⟨some (.str "v2"), some (.str "t"), some (.str "r"), some (.str "NO_GO"),
       some (.str "limited"), some (.arr []), none, some (.str "p"), some (.str "th"),
       some (.str "sl"), some (.str "rv"), some (.obj [])⟩ = true ∧
      Migration.payloadWellTyped
      ⟨some (.str "v2"), some (.str "t"), some (.str "r"), some (.str "NO_GO"),
       some (.str "limited"), some (.arr []), none, some (.str "p"), some (.str "th"),
       some (.str "sl"), some (.str "rv"), some (.obj [])⟩ = true) →
      ((Migration.migrationMain
        ⟨some (.str "v2"), some (.str "t"), some (.str "r"), some (.str "NO_GO"),
         some (.str "limited"), some (.arr []), none, some (.str "p"), some (.str "th"),
         some (.str "sl"), some (.str "rv"), some (.obj [])⟩
        ⟨some (.str "v2"), some (.str "t"), some (.str "r"), some (.str "NO_GO"),
         some (.str "limited"), some (.arr []), none, some (.str "p"), some (.str "th"),
         some (.str "sl"), some (.str "rv"), some (.obj [])⟩).1 = 0 ↔
        ((Migration.compare_verdicts
          ⟨some (.str "v2"), some (.str "t"), some (.str "r"), some (.str "NO_GO"),
           some (.str "limited"), some (.arr []), none, some (.str "p"), some (.str "th"),
           some (.str "sl"), some (.str "rv"), some (.obj [])⟩
          ⟨some (.str "v2"), some (.str "t"), some (.str "r"), some (.str "NO_GO"),
           some (.str "limited"), some (.arr []), none, some (.str "p"), some (.str "th"),
           some (.str "sl"), some (.str "rv"), some (.obj [])⟩).sameResult = true ∧
         (Migration.compare_verdicts
          ⟨some (.str "v2"), some (.str "t"), some (.str "r"), some (.str "NO_GO"),
           some (.str "limited"), some (.arr []), none, some (.str "p"), some (.str "th"),
           some (.str "sl"), some (.str "rv"), some (.obj [])⟩
          ⟨some (.str "v2"), some (.str "t"), some (.str "r"), some (.str "NO_GO"),
           some (.str "limited"), some (.arr []), none, some (.str "p"), some (.str "th"),
           some (.str "sl"), some (.str "rv"), some (.obj [])⟩).onlyInCandidate = []))) :=
  migration_compare_contract
    ⟨some (.str "v2"), some (.str "t"), some (.str "r"), some (.str "NO_GO"),
     some (.str "limited"), some (.arr []), none, some (.str "p"), some (.str "th"),
     some (.str "sl"), some (.str "rv"), some (.obj [])⟩
    ⟨some (.str "v2"), some (.str "t"), some (.str "r"), some (.str "NO_GO"),
     some (.str "limited"), some (.arr []), none, some (.str "p"), some (.str "th"),
     some (.str "sl"), some (.str "rv"), some (.obj [])⟩

/-- Counterexample to C8 as stated: a verdict document *without* a
`blockingIssues` field passes `validate_verdict_payload` (the required-field
table omits blockingIssues), and comparing the document against itself
exits 0 — while the claim's §3 model check would have rejected it with
exit 2. -/
theorem migration_compare_counterexample :
    Migration.validate_verdict_payload "baseline"
      ⟨some (.str "v2"), some (.str "t"), some (.str "r"), some (.str "NO_GO"),
       some (.str "limited"), some (.arr []), none, some (.str "p"), some (.str "th"),
       some (.str "sl"), some (.str "rv"), some (.obj [])⟩ = [] ∧
    (Migration.VPayload.mk (some (.str "v2")) (some (.str "t")) (some (.str "r"))
      (some (.str "NO_GO")) (some (.str "limited")) (some (.arr [])) none
      (some (.str "p")) (some (.str "th")) (some (.str "sl")) (some (.str "rv"))
      (some (.obj []))).blockingIssues = none ∧
    (Migration.migrationMain
      ⟨some (.str "v2"), some (.str "t"), some (.str "r"), some (.str "NO_GO"),
       some (.str "limited"), some (.arr []), none, some (.str "p"), some (.str "th"),
       some (.str "sl"), some (.str "rv"), some (.obj [])⟩
      ⟨some (.str "v2"), some (.str "t"), some (.str "r"), some (.str "NO_GO"),
       some (.str "limited"), some (.arr []), none, some (.str "p"), some (.str "th"),
       some (.str "sl"), some (.str "rv"), some (.obj [])⟩).1 = 0 := by
  refine ⟨rfl, rfl, rfl⟩
